import Mathlib

/-!
Shallow embedding of the digital-shop backend (coupon, order, order-lifecycle
and download handlers) and proofs about the properties of that code.

Modelling conventions:
* JavaScript numbers are modelled as exact rationals (`ℚ`).  The spec itself
  declares all monetary fields to be exact decimals, and for every concrete
  input used below the double-precision computation and the rational
  computation agree.
* Timestamps (`Date`) are modelled as integers; `new Date()` becomes an
  explicit `now : ℤ` parameter.
* The relational store is a record of lists, one per table.  `db.select ...
  where eq` becomes `List.find?` / `List.filter`, `db.update ... where eq`
  becomes `List.map` with a conditional update, `db.insert` appends.
* `numeric(p, 2)` columns (all monetary columns in the drizzle schema) round
  the inserted value to two fractional digits, ties away from zero, exactly
  as PostgreSQL does; this is `pgRound2` below.  `Math.round` is `jsRound`
  (half towards plus infinity).
* JavaScript truthiness: a `null` numeric column and the number `0` are both
  falsy, a non-null numeric DB string such as "0.00" is truthy, the empty
  string is falsy.  Each guard below mirrors the truthiness of the exact
  expression in the source.
* Handlers that can `throw` return `Except String α × DBState`: the state
  component is the store as left behind by the call (writes performed before
  a throw persist, there are no transactions in the source).
-/

namespace DigitalShop

/-- JavaScript `Math.round`: round half towards positive infinity. -/
def jsRound (q : ℚ) : ℤ := ⌊q + 1/2⌋

/-- The handler expression `Math.round(x * 1000) / 1000` from createOrder. -/
def jsRound3 (q : ℚ) : ℚ := (jsRound (q * 1000) : ℚ) / 1000

/-- PostgreSQL rounding of a value inserted into a `numeric(_, 2)` column:
two fractional digits, ties away from zero. -/
def pgRound2 (q : ℚ) : ℚ :=
  if 0 ≤ q then (⌊q * 100 + 1/2⌋ : ℚ) / 100 else -((⌊-q * 100 + 1/2⌋ : ℚ) / 100)

/-- `order_status` enum. -/
inductive OrderStatus
  | pending | completed | cancelled | refunded
deriving DecidableEq, Repr

/-- `payment_status` enum. -/
inductive PaymentStatus
  | pending | completed | failed
deriving DecidableEq, Repr

/-- Row of `users` (only the column the embedded handlers read). -/
structure User where
  id : Nat
deriving DecidableEq, Repr

/-- Row of `products` (columns read by the embedded handlers; `price` on the
catalog row is never read by the order flow, which trusts the submitted
price). -/
structure Product where
  id : Nat
  digital_file_url : Option String
  download_limit : Option Int
deriving DecidableEq, Repr

/-- Row of `coupons`.  The `numeric` columns are stored as their rational
values; the drizzle string round-trip `x ? parseFloat(x) : null` is the
identity on this representation (a non-null numeric string is never empty,
hence truthy). -/
structure Coupon where
  id : Nat
  code : String
  discount_percentage : Option ℚ
  discount_amount : Option ℚ
  min_order_amount : Option ℚ
  max_uses : Option Int
  current_uses : Int
  expires_at : Option Int
  is_active : Bool
  created_at : Int
  updated_at : Int
deriving DecidableEq, Repr

/-- Row of `orders`. -/
structure Order where
  id : Nat
  user_id : Nat
  total_amount : ℚ
  discount_amount : ℚ
  final_amount : ℚ
  coupon_id : Option Nat
  status : OrderStatus
  payment_status : PaymentStatus
  created_at : Int
  updated_at : Int
deriving DecidableEq, Repr

/-- Row of `order_items`. -/
structure OrderItem where
  id : Nat
  order_id : Nat
  product_id : Nat
  quantity : Int
  price : ℚ
  created_at : Int
deriving DecidableEq, Repr

/-- Row of `downloads` (a download grant). -/
structure DownloadRec where
  id : Nat
  user_id : Nat
  product_id : Nat
  order_id : Nat
  download_count : Int
  expires_at : Option Int
  created_at : Int
deriving DecidableEq, Repr

/-- One line item of `CreateOrderInput.items`. -/
structure InputItem where
  product_id : Nat
  quantity : Int
  price : ℚ
deriving DecidableEq, Repr

/-- `CreateOrderInput`. -/
structure CreateOrderInput where
  user_id : Nat
  coupon_code : Option String
  items : List InputItem
deriving DecidableEq, Repr

/-- The relational store plus the serial counters.  `downloadInsertFails` is
a fault-injection flag: when true, every `db.insert(downloadsTable)` inside
`createDownloadRecords` throws, which lets us state the swallow-and-log
policy of the order lifecycle as a theorem. -/
structure DBState where
  users : List User
  products : List Product
  coupons : List Coupon
  orders : List Order
  orderItems : List OrderItem
  downloads : List DownloadRec
  nextOrderId : Nat
  nextOrderItemId : Nat
  nextDownloadId : Nat
  downloadInsertFails : Bool
deriving DecidableEq, Repr

/-! ## Coupon handlers (handlers/coupons.ts) -/

/-- `getCouponByCode`: select by unique `code`; the numeric string
conversion performed by the source is the identity here. -/
def getCouponByCode (code : String) (st : DBState) : Option Coupon :=
  st.coupons.find? (fun c => c.code == code)

/-- Result shape of `validateCoupon`. -/
structure CouponValidation where
  valid : Bool
  discount : ℚ
  coupon : Option Coupon
deriving DecidableEq, Repr

/-- Guard `coupon.expires_at && coupon.expires_at < new Date()` (and the
equivalent `new Date() > coupon.expires_at` in createOrder). -/
def couponExpired (now : Int) (c : Coupon) : Bool :=
  match c.expires_at with
  | some e => decide (e < now)
  | none => false

/-- Guard `coupon.max_uses !== null && coupon.current_uses >= coupon.max_uses`
from validateCoupon: an explicit null test, so a cap of `0` is enforced. -/
def couponAtMaxUses (c : Coupon) : Bool :=
  match c.max_uses with
  | some m => decide (m ≤ c.current_uses)
  | none => false

/-- Guard `coupon.max_uses && coupon.current_uses >= coupon.max_uses` from
createOrder: a truthiness test, so a cap of `0` is ignored (unlimited). -/
def couponOverCapB (c : Coupon) : Bool :=
  match c.max_uses with
  | some m => decide (m ≠ 0) && decide (m ≤ c.current_uses)
  | none => false

/-- Guard `coupon.min_order_amount && orderAmount < min` (the raw numeric
string is truthy whenever the column is non-null). -/
def couponBelowMinB (total : ℚ) (c : Coupon) : Bool :=
  match c.min_order_amount with
  | some mo => decide (total < mo)
  | none => false

/-- `validateCoupon(code, orderAmount)` from handlers/coupons.ts lines
88-136.  Note: no rounding here, and no truthiness subtleties survive the
string conversion. -/
def validateCoupon (now : Int) (code : String) (orderAmount : ℚ) (st : DBState) :
    CouponValidation :=
  match getCouponByCode code st with
  | none => ⟨false, 0, none⟩
  | some c =>
    if !c.is_active then ⟨false, 0, none⟩
    else if couponExpired now c then ⟨false, 0, none⟩
    else if couponAtMaxUses c then ⟨false, 0, none⟩
    else if couponBelowMinB orderAmount c then ⟨false, 0, none⟩
    else
      let d0 : ℚ :=
        match c.discount_percentage with
        | some p => orderAmount * p / 100
        | none =>
          match c.discount_amount with
          | some a => a
          | none => 0
      ⟨true, min d0 orderAmount, some c⟩

/-- `deleteCoupon(id)`: a soft delete.  `update ... set is_active = false,
updated_at = now where id = id returning`, result is `rows.length > 0`. -/
def deleteCoupon (now : Int) (id : Nat) (st : DBState) : Bool × DBState :=
  let touched := st.coupons.filter (fun c => c.id == id)
  let coupons' := st.coupons.map (fun c =>
    if c.id == id then { c with is_active := false, updated_at := now } else c)
  (!touched.isEmpty, { st with coupons := coupons' })

/-! ## Order handlers (handlers/orders.ts) -/

/-- The product-existence-and-total loop of createOrder (lines 18-31):
throws at the first missing product, otherwise accumulates
`total += price * quantity`. -/
def checkItemsTotalAux (products : List Product) :
    List InputItem → ℚ → Except String ℚ
  | [], acc => .ok acc
  | it :: rest, acc =>
    if (products.find? (fun p => p.id == it.product_id)).isSome then
      checkItemsTotalAux products rest (acc + it.price * (it.quantity : ℚ))
    else
      .error "Product not found"

/-- Total of the submitted line items (the messages in the source carry the
offending id; the ids are irrelevant to the claims and are omitted). -/
def checkItemsTotal (products : List Product) (items : List InputItem) :
    Except String ℚ :=
  checkItemsTotalAux products items 0

/-- `update coupons set current_uses = current_uses + 1 where id = cid`. -/
def bumpUses (coupons : List Coupon) (cid : Nat) : List Coupon :=
  coupons.map (fun c =>
    if c.id == cid then { c with current_uses := c.current_uses + 1 } else c)

/-- The coupon block of createOrder (lines 33-79).  A code that matches no
active coupon is silently skipped; a matched coupon is validated (expiry,
truthy usage cap, truthy minimum), its discount computed — percentage
discounts get the `Math.round(x*1000)/1000` treatment — and its
`current_uses` bumped. -/
def applyCoupon (now : Int) (couponCode : Option String) (total : ℚ)
    (coupons : List Coupon) : Except String (Option Nat × ℚ × List Coupon) :=
  match couponCode with
  | none => .ok (none, 0, coupons)
  | some code =>
    match coupons.find? (fun c => c.code == code && c.is_active) with
    | none => .ok (none, 0, coupons)
    | some c =>
      if couponExpired now c then .error "Coupon has expired"
      else if couponOverCapB c then .error "Coupon usage limit exceeded"
      else if couponBelowMinB total c then .error "Minimum order amount not met"
      else
        let d : ℚ :=
          match c.discount_percentage with
          | some p => jsRound3 (total * p / 100)
          | none =>
            match c.discount_amount with
            | some a => a
            | none => 0
        .ok (some c.id, d, bumpUses coupons c.id)

/-- The order-items insert loop of createOrder (lines 100-109); the `price`
column is `numeric(10,2)`. -/
def insertItems (now : Int) (orderId : Nat) : List InputItem → DBState → DBState
  | [], st => st
  | it :: rest, st =>
    insertItems now orderId rest
      { st with
        orderItems := st.orderItems ++
          [⟨st.nextOrderItemId, orderId, it.product_id, it.quantity,
            pgRound2 it.price, now⟩],
        nextOrderItemId := st.nextOrderItemId + 1 }

/-- `createOrder` from handlers/orders.ts lines 6-121.  All throws happen
before the first write, so the store is unchanged on every error path; the
monetary columns of the inserted order are `numeric(10,2)` and round the
computed values to two fractional digits. -/
def createOrder (now : Int) (input : CreateOrderInput) (st : DBState) :
    Except String Order × DBState :=
  match st.users.find? (fun u => u.id == input.user_id) with
  | none => (.error "User not found", st)
  | some _ =>
    match checkItemsTotal st.products input.items with
    | .error e => (.error e, st)
    | .ok total =>
      match applyCoupon now input.coupon_code total st.coupons with
      | .error e => (.error e, st)
      | .ok (cid, d, coupons') =>
        let ord : Order :=
          { id := st.nextOrderId
            user_id := input.user_id
            total_amount := pgRound2 total
            discount_amount := pgRound2 d
            final_amount := pgRound2 (total - d)
            coupon_id := cid
            status := .pending
            payment_status := .pending
            created_at := now
            updated_at := now }
        let st1 : DBState :=
          { st with
            coupons := coupons'
            orders := st.orders ++ [ord]
            nextOrderId := st.nextOrderId + 1 }
        (.ok ord, insertItems now ord.id input.items st1)

/-! ## Download provisioning (handlers/orders.ts lines 301-354) -/

/-- One row of the three-way join in createDownloadRecords. -/
structure GrantRow where
  product_id : Nat
  user_id : Nat
  url : Option String
  dlimit : Option Int
deriving DecidableEq, Repr

/-- The items/orders/products inner join restricted to one order. -/
def grantRows (orderId : Nat) (items : List OrderItem) (orders : List Order)
    (products : List Product) : List GrantRow :=
  items.filterMap (fun it =>
    if it.order_id == orderId then
      match orders.find? (fun o => o.id == it.order_id) with
      | some o =>
        match products.find? (fun p => p.id == it.product_id) with
        | some p => some ⟨it.product_id, o.user_id, p.digital_file_url, p.download_limit⟩
        | none => none
      | none => none
    else none)

/-- Truthiness of `item.digital_file_url` (empty string is falsy). -/
def digitalRow (r : GrantRow) : Bool :=
  match r.url with
  | some u => u != ""
  | none => false

/-- The provisioning loop of createDownloadRecords (lines 317-349): for each
digital row whose (order, product, user) key has no grant yet, insert one
with `download_count = 0` and a 30-day expiry when a truthy download limit
exists.  When `fails` is set the insert throws, ending the loop; the grants
inserted so far persist (the caller swallows the error). -/
def processRows (now : Int) (orderId : Nat) (fails : Bool) :
    List GrantRow → List DownloadRec → Nat → List DownloadRec × Nat
  | [], ds, n => (ds, n)
  | r :: rs, ds, n =>
    if digitalRow r then
      if (ds.find? (fun d =>
            d.order_id == orderId && d.product_id == r.product_id &&
            d.user_id == r.user_id)).isSome then
        processRows now orderId fails rs ds n
      else if fails then (ds, n)
      else
        let exp : Option Int :=
          match r.dlimit with
          | some l => if l ≠ 0 then some (now + 2592000) else none
          | none => none
        processRows now orderId fails rs
          (ds ++ [⟨n, r.user_id, r.product_id, orderId, 0, exp, now⟩]) (n + 1)
    else
      processRows now orderId fails rs ds n

/-- `createDownloadRecords(orderId)`: provisioning helper, its try/catch
swallows every error (lines 350-353), so it always returns a state and
never propagates a failure. -/
def createDownloadRecords (now : Int) (orderId : Nat) (st : DBState) : DBState :=
  let rows := grantRows orderId st.orderItems st.orders st.products
  let r := processRows now orderId st.downloadInsertFails rows st.downloads st.nextDownloadId
  { st with downloads := r.1, nextDownloadId := r.2 }

/-- `updateOrderStatus(id, status)`: set the status, refresh `updated_at`,
and when the resulting composite state is (completed, completed) run the
download provisioning. -/
def updateOrderStatus (now : Int) (id : Nat) (status : OrderStatus) (st : DBState) :
    Except String Order × DBState :=
  match st.orders.find? (fun o => o.id == id) with
  | none => (.error "Order not found", st)
  | some _ =>
    let orders' := st.orders.map (fun o =>
      if o.id == id then { o with status := status, updated_at := now } else o)
    let st1 := { st with orders := orders' }
    match orders'.find? (fun o => o.id == id) with
    | none => (.error "Order not found", st1)
    | some ord =>
      let st2 :=
        if status = .completed ∧ ord.payment_status = .completed then
          createDownloadRecords now id st1
        else st1
      (.ok ord, st2)

/-- `updatePaymentStatus(id, paymentStatus)`: symmetric to
`updateOrderStatus`. -/
def updatePaymentStatus (now : Int) (id : Nat) (ps : PaymentStatus) (st : DBState) :
    Except String Order × DBState :=
  match st.orders.find? (fun o => o.id == id) with
  | none => (.error "Order not found", st)
  | some _ =>
    let orders' := st.orders.map (fun o =>
      if o.id == id then { o with payment_status := ps, updated_at := now } else o)
    let st1 := { st with orders := orders' }
    match orders'.find? (fun o => o.id == id) with
    | none => (.error "Order not found", st1)
    | some ord =>
      let st2 :=
        if ps = .completed ∧ ord.status = .completed then
          createDownloadRecords now id st1
        else st1
      (.ok ord, st2)

/-! ## Download handlers (handlers/downloads.ts) -/

/-- Guard `downloadLimit && download.download_count >= downloadLimit`
(truthiness: a limit of `0` means unlimited). -/
def limitReached (p : Product) (d : DownloadRec) : Bool :=
  match p.download_limit with
  | some l => decide (l ≠ 0) && decide (l ≤ d.download_count)
  | none => false

/-- Result shape of `validateDownload`. -/
structure DownloadValidation where
  valid : Bool
  download : Option DownloadRec
deriving DecidableEq, Repr

/-- `validateDownload(downloadId, userId)` from handlers/downloads.ts lines
111-152: the grant must exist for this user (inner join with products),
must not be past `expires_at`, and must be under a truthy download limit. -/
def validateDownload (now : Int) (downloadId userId : Nat) (st : DBState) :
    DownloadValidation :=
  match st.downloads.find? (fun d => d.id == downloadId && d.user_id == userId) with
  | none => ⟨false, none⟩
  | some d =>
    match st.products.find? (fun p => p.id == d.product_id) with
    | none => ⟨false, none⟩
    | some p =>
      if (match d.expires_at with | some e => decide (e < now) | none => false) then
        ⟨false, none⟩
      else if limitReached p d then ⟨false, none⟩
      else ⟨true, some d⟩

/-- `incrementDownloadCount(downloadId)` from handlers/downloads.ts lines
154-195: re-validates the truthy limit at increment time, then bumps
`download_count` by one. -/
def incrementDownloadCount (downloadId : Nat) (st : DBState) :
    Except String DownloadRec × DBState :=
  match st.downloads.find? (fun d => d.id == downloadId) with
  | none => (.error "Download not found", st)
  | some d =>
    match st.products.find? (fun p => p.id == d.product_id) with
    | none => (.error "Download not found", st)
    | some p =>
      if limitReached p d then (.error "Download limit exceeded", st)
      else
        let downloads' := st.downloads.map (fun x =>
          if x.id == downloadId then { x with download_count := x.download_count + 1 } else x)
        let st1 := { st with downloads := downloads' }
        match downloads'.find? (fun x => x.id == downloadId) with
        | none => (.error "Download not found", st1)
        | some d' => (.ok d', st1)

/-- One entry of the in-process token store. -/
structure TokenEntry where
  downloadId : Nat
  userId : Nat
  expires : Int
deriving DecidableEq, Repr

/-- The volatile `tokenStore` map, as an association list. -/
def TokenStore : Type := List (String × TokenEntry)

/-- `tokenStore.get(token)`. -/
def lookupToken (store : TokenStore) (token : String) : Option TokenEntry :=
  ((store : List (String × TokenEntry)).find? (fun e => e.1 == token)).map (·.2)

/-- `tokenStore.delete(token)`. -/
def deleteToken (store : TokenStore) (token : String) : TokenStore :=
  (store : List (String × TokenEntry)).filter (fun e => e.1 != token)

/-- Result shape of `validateDownloadToken`. -/
structure TokenCheck where
  valid : Bool
  downloadId : Option Nat
  userId : Option Nat
deriving DecidableEq, Repr

/-- `validateDownloadToken(token)` from handlers/downloads.ts lines 228-258:
look the token up, reject and delete it when its own expiry has passed or
when the underlying grant no longer validates, otherwise accept. -/
def validateDownloadToken (now : Int) (token : String) (store : TokenStore)
    (st : DBState) : TokenCheck × TokenStore :=
  match lookupToken store token with
  | none => (⟨false, none, none⟩, store)
  | some td =>
    if decide (td.expires < now) then
      (⟨false, none, none⟩, deleteToken store token)
    else if (validateDownload now td.downloadId td.userId st).valid = false then
      (⟨false, none, none⟩, deleteToken store token)
    else
      (⟨true, some td.downloadId, some td.userId⟩, store)

/-! ## Generic lemmas -/

instance {ε α : Type} [DecidableEq ε] [DecidableEq α] : DecidableEq (Except ε α) := fun x y =>
  match x, y with
  | .ok a, .ok b =>
    if h : a = b then .isTrue (by rw [h]) else .isFalse (fun hc => h (Except.ok.inj hc))
  | .error a, .error b =>
    if h : a = b then .isTrue (by rw [h]) else .isFalse (fun hc => h (Except.error.inj hc))
  | .ok _, .error _ => .isFalse (fun hc => Except.noConfusion hc)
  | .error _, .ok _ => .isFalse (fun hc => Except.noConfusion hc)

/-- Mapping an update over a list commutes with `find?` when the update
does not change the predicate. -/
theorem find?_map_comm {α : Type} (u : α → α) (p : α → Bool)
    (h : ∀ x, p (u x) = p x) :
    ∀ l : List α, (l.map u).find? p = (l.find? p).map u := by
  intro l
  induction l with
  | nil => rfl
  | cons a t ih =>
    by_cases hpa : p a = true
    · rw [List.map_cons, List.find?_cons_of_pos _ ((h a).trans hpa),
        List.find?_cons_of_pos _ hpa, Option.map_some']
    · rw [List.map_cons, List.find?_cons_of_neg, List.find?_cons_of_neg _ ?_, ih]
      · simp [hpa]
      · rw [h a]; simp [hpa]

/-- A key filtered out of an association list is no longer found. -/
theorem find?_filter_ne {α β : Type} [DecidableEq α] (l : List (α × β)) (k : α) :
    (l.filter (fun e => e.1 != k)).find? (fun e => e.1 == k) = none := by
  rw [List.find?_eq_none]
  intro e he
  have := (List.mem_filter.mp he).2
  simpa using this

/-! ## C3: validateCoupon rule rejection and discount bounds -/

/-- A nullable numeric column holding a nonnegative value (all reachable
coupons satisfy this for both discount columns: the creation schema allows
only `discount_percentage ∈ [0,100]` and positive `discount_amount`). -/
def nonnegOpt (o : Option ℚ) : Bool :=
  match o with
  | some x => decide (0 ≤ x)
  | none => true

/-- Modelled from the spec, §4.1: the disjunction of the five rejection
rules (coupon missing, inactive, expired, usage cap reached, minimum order
not met), to be compared with what `validateCoupon` does.  The individual
rule guards coincide textually with the code's own guards. -/
def specRuleFails (now : Int) (amt : ℚ) (st : DBState) (code : String) : Bool :=
  match st.coupons.find? (fun c => c.code == code) with
  | none => true
  | some c =>
    !c.is_active || couponExpired now c || couponAtMaxUses c || couponBelowMinB amt c

/-- Helper: the first failing rule drives `validateCoupon` to the invalid
result. -/
theorem validateCoupon_invalid_of_ruleFails {now : Int} {code : String} {amt : ℚ}
    {st : DBState} (h : specRuleFails now amt st code = true) :
    validateCoupon now code amt st = ⟨false, 0, none⟩ := by
  unfold specRuleFails at h
  unfold validateCoupon getCouponByCode
  cases hfind : st.coupons.find? (fun c => c.code == code) with
  | none => rfl
  | some c =>
    rw [hfind] at h
    simp only [Bool.or_eq_true, Bool.not_eq_true'] at h
    rcases h with ((hA | hE) | hM) | hMin
    · simp [hA]
    · by_cases hA : c.is_active <;> simp [hA, hE]
    · by_cases hA : c.is_active <;> by_cases hE : couponExpired now c <;> simp [hA, hE, hM]
    · by_cases hA : c.is_active <;> by_cases hE : couponExpired now c <;>
        by_cases hM : couponAtMaxUses c <;> simp [hA, hE, hM, hMin]

/-- Helper: when every rule passes, `validateCoupon` returns `valid = true`
and the capped discount of the found coupon. -/
theorem validateCoupon_valid_of_rules_ok {now : Int} {code : String} {amt : ℚ}
    {st : DBState} (h : specRuleFails now amt st code = false) :
    ∃ c, st.coupons.find? (fun x => x.code == code) = some c ∧
      validateCoupon now code amt st =
        ⟨true,
          min (match c.discount_percentage with
               | some p => amt * p / 100
               | none =>
                 match c.discount_amount with
                 | some a => a
                 | none => 0) amt,
          some c⟩ := by
  unfold specRuleFails at h
  unfold validateCoupon getCouponByCode
  cases hfind : st.coupons.find? (fun c => c.code == code) with
  | none => rw [hfind] at h; cases h
  | some c =>
    rw [hfind] at h
    simp only [Bool.or_eq_false_iff, Bool.not_eq_false'] at h
    obtain ⟨⟨⟨hA, hE⟩, hM⟩, hMin⟩ := h
    refine ⟨c, rfl, ?_⟩
    simp [hA, hE, hM, hMin]

/-- C3 (amended): whenever one of the five rules fails `validateCoupon`
returns `valid = false` and `discount = 0`; otherwise it returns
`valid = true`; and — for a nonnegative `orderAmount` and coupons whose
discount columns are nonnegative — the discount is never negative and never
exceeds `orderAmount`.  (The claim's unrestricted version is false: see the
counterexample with a negative `orderAmount`.) -/
theorem validateCoupon_rules_and_bounds (now : Int) (code : String) (amt : ℚ)
    (st : DBState) (hamt : 0 ≤ amt)
    (hwf : ∀ c ∈ st.coupons,
      nonnegOpt c.discount_percentage = true ∧ nonnegOpt c.discount_amount = true) :
    (specRuleFails now amt st code = true →
      validateCoupon now code amt st = ⟨false, 0, none⟩) ∧
    (specRuleFails now amt st code = false →
      (validateCoupon now code amt st).valid = true) ∧
    0 ≤ (validateCoupon now code amt st).discount ∧
    (validateCoupon now code amt st).discount ≤ amt := by
  cases hb : specRuleFails now amt st code with
  | true =>
    have hv := validateCoupon_invalid_of_ruleFails hb
    rw [hv]
    refine ⟨fun _ => rfl, ?_, ?_, ?_⟩
    · intro hf; cases hf
    · exact le_refl 0
    · exact hamt
  | false =>
    obtain ⟨c, hfind, hv⟩ := validateCoupon_valid_of_rules_ok hb
    have hcmem : c ∈ st.coupons := List.mem_of_find?_eq_some hfind
    have hwfc := hwf c hcmem
    have hd0 : 0 ≤ (match c.discount_percentage with
        | some p => amt * p / 100
        | none =>
          match c.discount_amount with
          | some a => a
          | none => 0) := by
      cases hp : c.discount_percentage with
      | some p =>
        have hpn : 0 ≤ p := by
          have := hwfc.1; rw [hp] at this; simpa [nonnegOpt] using this
        exact div_nonneg (mul_nonneg hamt hpn) (by norm_num)
      | none =>
        cases ha : c.discount_amount with
        | some a =>
          have := hwfc.2; rw [ha] at this; simpa [nonnegOpt] using this
        | none => exact le_refl 0
    rw [hv]
    refine ⟨?_, fun _ => rfl, ?_, ?_⟩
    · intro hf; cases hf
    · exact le_min hd0 hamt
    · exact min_le_right _ amt

/-- Concrete store for the C3 witness: a reachable percentage coupon. -/
def stC3 : DBState :=
  { users := [], products := [],
    coupons := [⟨1, "SAVE10", some 10, none, some 50, some 100, 0, none, true, 0, 0⟩],
    orders := [], orderItems := [], downloads := [],
    nextOrderId := 1, nextOrderItemId := 1, nextDownloadId := 1,
    downloadInsertFails := false }

/-- Witness for C3: the hypotheses hold at a concrete store and order
amount, and the theorem applies there. -/
theorem validateCoupon_rules_and_bounds_witness :
    (0 ≤ (5998/100 : ℚ)) ∧
    (∀ c ∈ stC3.coupons,
      nonnegOpt c.discount_percentage = true ∧ nonnegOpt c.discount_amount = true) ∧
    ((specRuleFails 0 (5998/100) stC3 "SAVE10" = true →
      validateCoupon 0 "SAVE10" (5998/100) stC3 = ⟨false, 0, none⟩) ∧
    (specRuleFails 0 (5998/100) stC3 "SAVE10" = false →
      (validateCoupon 0 "SAVE10" (5998/100) stC3).valid = true) ∧
    0 ≤ (validateCoupon 0 "SAVE10" (5998/100) stC3).discount ∧
    (validateCoupon 0 "SAVE10" (5998/100) stC3).discount ≤ 5998/100) :=
  ⟨by norm_num, by decide,
    validateCoupon_rules_and_bounds 0 "SAVE10" (5998/100) stC3 (by norm_num) (by decide)⟩

/-- Concrete store for the C3 counterexample: a reachable fixed-amount
coupon with no minimum order amount. -/
def stC3cex : DBState :=
  { users := [], products := [],
    coupons := [⟨1, "FIX5", none, some 5, none, none, 0, none, true, 0, 0⟩],
    orders := [], orderItems := [], downloads := [],
    nextOrderId := 1, nextOrderItemId := 1, nextDownloadId := 1,
    downloadInsertFails := false }

/-- Counterexample for C3 as stated: for the (API-reachable) negative order
amount `-10`, every rule passes, yet `validateCoupon` returns `valid = true`
with the negative discount `-10` — the claim's "discount is never negative
for every orderAmount" is false on the code. -/
theorem validateCoupon_negative_discount_cex :
    (validateCoupon 0 "FIX5" (-10) stC3cex).valid = true ∧
    (validateCoupon 0 "FIX5" (-10) stC3cex).discount = -10 ∧
    (validateCoupon 0 "FIX5" (-10) stC3cex).discount < 0 := by
  refine ⟨by decide, by decide, by decide⟩

/-! ## C10: deleteCoupon is a soft delete -/

/-- C10: `deleteCoupon` deactivates the row in place.  For the (unique) row
carrying a code: deletion returns `true`, `getCouponByCode` still finds the
row afterwards with only `is_active` and `updated_at` changed, and
`validateCoupon` rejects the code for every order amount; in general the
returned Boolean is `true` exactly when some coupon has the given id. -/
theorem deleteCoupon_soft_delete (now : Int) (st : DBState) (c : Coupon)
    (hc : st.coupons.find? (fun x => x.code == c.code) = some c) :
    (deleteCoupon now c.id st).1 = true ∧
    getCouponByCode c.code (deleteCoupon now c.id st).2 =
      some { c with is_active := false, updated_at := now } ∧
    (∀ now2 amt, validateCoupon now2 c.code amt (deleteCoupon now c.id st).2 =
      ⟨false, 0, none⟩) ∧
    (∀ id', (deleteCoupon now id' st).1 = true ↔ ∃ x ∈ st.coupons, x.id = id') := by
  have hmem : c ∈ st.coupons := List.mem_of_find?_eq_some hc
  have hgen : ∀ id', (deleteCoupon now id' st).1 = true ↔ ∃ x ∈ st.coupons, x.id = id' := by
    intro id'
    unfold deleteCoupon
    simp only [Bool.not_eq_true']
    constructor
    · intro h
      cases hfil : st.coupons.filter (fun y => y.id == id') with
      | nil => rw [hfil] at h; cases h
      | cons a l =>
        have ha : a ∈ st.coupons.filter (fun y => y.id == id') := by
          rw [hfil]; exact List.mem_cons_self a l
        have := List.mem_filter.mp ha
        exact ⟨a, this.1, by simpa using this.2⟩
    · rintro ⟨x, hxmem, hxid⟩
      have hxin : x ∈ st.coupons.filter (fun y => y.id == id') :=
        List.mem_filter.mpr ⟨hxmem, by simp [hxid]⟩
      cases hfil : st.coupons.filter (fun y => y.id == id') with
      | nil => rw [hfil] at hxin; cases hxin
      | cons a l => rfl
  have hfound : getCouponByCode c.code (deleteCoupon now c.id st).2 =
      some { c with is_active := false, updated_at := now } := by
    unfold getCouponByCode deleteCoupon
    have hpres : ∀ x : Coupon,
        ((if x.id == c.id then { x with is_active := false, updated_at := now } else x).code
          == c.code) = (x.code == c.code) := by
      intro x
      by_cases h : x.id == c.id <;> simp [h]
    rw [find?_map_comm _ _ hpres, hc]
    simp
  refine ⟨?_, hfound, ?_, hgen⟩
  · exact (hgen c.id).mpr ⟨c, hmem, rfl⟩
  · intro now2 amt
    unfold validateCoupon
    rw [hfound]
    simp

/-- Concrete store for the C10 witness. -/
def stC10 : DBState :=
  { users := [], products := [],
    coupons := [⟨7, "SAVE10", some 10, none, some 50, some 100, 3, none, true, 0, 0⟩],
    orders := [], orderItems := [], downloads := [],
    nextOrderId := 1, nextOrderItemId := 1, nextDownloadId := 1,
    downloadInsertFails := false }

/-- The coupon of the C10 witness. -/
def cC10 : Coupon := ⟨7, "SAVE10", some 10, none, some 50, some 100, 3, none, true, 0, 0⟩

/-- Witness for C10: the lookup hypothesis holds at a concrete store and
the theorem applies there. -/
theorem deleteCoupon_soft_delete_witness :
    (stC10.coupons.find? (fun x => x.code == cC10.code) = some cC10) ∧
    ((deleteCoupon 9 cC10.id stC10).1 = true ∧
    getCouponByCode cC10.code (deleteCoupon 9 cC10.id stC10).2 =
      some { cC10 with is_active := false, updated_at := 9 } ∧
    (∀ now2 amt, validateCoupon now2 cC10.code amt (deleteCoupon 9 cC10.id stC10).2 =
      ⟨false, 0, none⟩) ∧
    (∀ id', (deleteCoupon 9 id' stC10).1 = true ↔ ∃ x ∈ stC10.coupons, x.id = id')) :=
  ⟨by decide, deleteCoupon_soft_delete 9 stC10 cC10 (by decide)⟩

/-! ## Rounding lemmas -/

/-- A value already representable with two fractional digits is unchanged
by the `numeric(_, 2)` column rounding. -/
theorem pgRound2_eq_self {q : ℚ} (h : (q * 100).den = 1) : pgRound2 q = q := by
  have e1 : (((q * 100).num : ℤ) : ℚ) = q * 100 := Rat.coe_int_num_of_den_eq_one h
  unfold pgRound2
  have hfloor : ∀ n : ℤ, ⌊(n : ℚ) + 1/2⌋ = n := by
    intro n
    rw [add_comm, Int.floor_add_int]
    norm_num
  by_cases hq : 0 ≤ q
  · rw [if_pos hq, ← e1, hfloor]
    rw [e1]
    field_simp
  · rw [if_neg hq]
    have : -q * 100 = ((-(q * 100).num : ℤ) : ℚ) := by push_cast [e1]; ring
    rw [this, hfloor]
    push_cast [e1]
    ring

/-- The difference of two two-digit decimals is a two-digit decimal. -/
theorem den_sub_money2 {a b : ℚ} (ha : (a * 100).den = 1) (hb : (b * 100).den = 1) :
    ((a - b) * 100).den = 1 := by
  have e1 : (((a * 100).num : ℤ) : ℚ) = a * 100 := Rat.coe_int_num_of_den_eq_one ha
  have e2 : (((b * 100).num : ℤ) : ℚ) = b * 100 := Rat.coe_int_num_of_den_eq_one hb
  have : (a - b) * 100 = (((a * 100).num - (b * 100).num : ℤ) : ℚ) := by
    push_cast [e1, e2]; ring
  rw [this]
  exact Rat.den_intCast _

/-! ## createOrder structural lemmas -/

/-- `insertItems` only touches the order-items table and its counter. -/
theorem insertItems_frame (now : Int) (oid : Nat) :
    ∀ (items : List InputItem) (st : DBState),
      (insertItems now oid items st).users = st.users ∧
      (insertItems now oid items st).products = st.products ∧
      (insertItems now oid items st).coupons = st.coupons ∧
      (insertItems now oid items st).orders = st.orders ∧
      (insertItems now oid items st).downloads = st.downloads ∧
      (insertItems now oid items st).nextOrderId = st.nextOrderId ∧
      (insertItems now oid items st).nextDownloadId = st.nextDownloadId ∧
      (insertItems now oid items st).downloadInsertFails = st.downloadInsertFails := by
  intro items
  induction items with
  | nil => intro st; exact ⟨rfl, rfl, rfl, rfl, rfl, rfl, rfl, rfl⟩
  | cons it rest ih =>
    intro st
    exact ih _

/-- The order returned by a successful `createOrder`, in terms of the
computed total and the coupon-resolution discount. -/
theorem createOrder_ok_fields {now : Int} {input : CreateOrderInput} {st : DBState}
    {total : ℚ} {cid : Option Nat} {d : ℚ} {coupons2 : List Coupon} {ord : Order}
    (ht : checkItemsTotal st.products input.items = .ok total)
    (hc : applyCoupon now input.coupon_code total st.coupons = .ok (cid, d, coupons2))
    (hok : (createOrder now input st).1 = .ok ord) :
    ord = { id := st.nextOrderId, user_id := input.user_id,
            total_amount := pgRound2 total, discount_amount := pgRound2 d,
            final_amount := pgRound2 (total - d), coupon_id := cid,
            status := .pending, payment_status := .pending,
            created_at := now, updated_at := now } := by
  unfold createOrder at hok
  cases hu : st.users.find? (fun u => u.id == input.user_id) with
  | none => rw [hu] at hok; cases hok
  | some u =>
    simp only [hu, ht, hc] at hok
    exact (Except.ok.inj hok).symm

/-- C1 (amended): on every code path the handler computes
`final = total - discount` exactly, and the persisted columns are the
`numeric(10,2)` roundings of the computed values; consequently the persisted
equation `final_amount = total_amount - discount_amount` holds whenever the
computed total and discount are two-digit decimals (in particular on the
no-coupon and fixed-amount paths).  The claim's second half,
`discount_amount ≤ total_amount`, is not maintained: createOrder applies a
fixed-amount coupon without capping it at the order total (see the
counterexample). -/
theorem createOrder_money_invariant (now : Int) (input : CreateOrderInput)
    (st : DBState) (total : ℚ) (cid : Option Nat) (d : ℚ) (coupons2 : List Coupon)
    (ord : Order)
    (ht : checkItemsTotal st.products input.items = .ok total)
    (hc : applyCoupon now input.coupon_code total st.coupons = .ok (cid, d, coupons2))
    (hok : (createOrder now input st).1 = .ok ord) :
    ord.total_amount = pgRound2 total ∧
    ord.discount_amount = pgRound2 d ∧
    ord.final_amount = pgRound2 (total - d) ∧
    ((total * 100).den = 1 → (d * 100).den = 1 →
      ord.final_amount = ord.total_amount - ord.discount_amount) := by
  have h := createOrder_ok_fields ht hc hok
  subst h
  refine ⟨rfl, rfl, rfl, ?_⟩
  intro h1 h2
  show pgRound2 (total - d) = pgRound2 total - pgRound2 d
  rw [pgRound2_eq_self h1, pgRound2_eq_self h2, pgRound2_eq_self (den_sub_money2 h1 h2)]

/-- Store for the C1 witness: the no-coupon scenario of the spec
(items `[{price 29.99, qty 2}]`). -/
def stC1 : DBState :=
  { users := [⟨1⟩], products := [⟨1, none, none⟩], coupons := [],
    orders := [], orderItems := [], downloads := [],
    nextOrderId := 1, nextOrderItemId := 1, nextDownloadId := 1,
    downloadInsertFails := false }

/-- Input for the C1 witness. -/
def inC1 : CreateOrderInput := ⟨1, none, [⟨1, 2, 2999/100⟩]⟩

/-- The order produced by the C1 witness scenario. -/
def ordC1 : Order :=
  ⟨1, 1, 5998/100, 0, 5998/100, none, .pending, .pending, 3, 3⟩

/-- Witness for C1: the hypotheses hold on the spec's own no-coupon
scenario, and the theorem yields `total 59.98, discount 0, final 59.98`
with the persisted equation intact. -/
theorem createOrder_money_invariant_witness :
    (checkItemsTotal stC1.products inC1.items = .ok (5998/100)) ∧
    (applyCoupon 3 inC1.coupon_code (5998/100) stC1.coupons = .ok (none, 0, [])) ∧
    ((createOrder 3 inC1 stC1).1 = .ok ordC1) ∧
    (ordC1.total_amount = pgRound2 (5998/100) ∧
     ordC1.discount_amount = pgRound2 0 ∧
     ordC1.final_amount = pgRound2 (5998/100 - 0) ∧
     (((5998/100 : ℚ) * 100).den = 1 → ((0 : ℚ) * 100).den = 1 →
       ordC1.final_amount = ordC1.total_amount - ordC1.discount_amount)) := by
  have ht : checkItemsTotal stC1.products inC1.items = .ok (5998/100) := by
    have h2 : checkItemsTotal stC1.products inC1.items =
        .ok ((0:ℚ) + 2999/100 * ((2:Int):ℚ)) := rfl
    rw [h2]; norm_num
  have hc : applyCoupon 3 inC1.coupon_code (5998/100) stC1.coupons =
      .ok (none, 0, []) := rfl
  have hu : stC1.users.find? (fun u => u.id == inC1.user_id) = some ⟨1⟩ := rfl
  have hok : (createOrder 3 inC1 stC1).1 = .ok ordC1 := by
    simp only [createOrder, hu, ht, hc]
    norm_num [Order.mk.injEq, ordC1, stC1, inC1, pgRound2]
  exact ⟨ht, hc, hok,
    createOrder_money_invariant 3 inC1 stC1 (5998/100) none 0 [] ordC1 ht hc hok⟩

/-- Store for the C1 counterexample: the spec's own `HIGH50` coupon (fixed
$50 off, no minimum) and a $30 order. -/
def stC1cex : DBState :=
  { users := [⟨1⟩], products := [⟨1, none, none⟩],
    coupons := [⟨1, "HIGH50", none, some 50, none, none, 0, none, true, 0, 0⟩],
    orders := [], orderItems := [], downloads := [],
    nextOrderId := 1, nextOrderItemId := 1, nextDownloadId := 1,
    downloadInsertFails := false }

/-- Input for the C1 counterexample. -/
def inC1cex : CreateOrderInput := ⟨1, some "HIGH50", [⟨1, 1, 30⟩]⟩

/-- Counterexample for C1 as stated: checkout with a $50 fixed coupon on a
$30 order succeeds and persists `total 30, discount 50, final -20` — the
invariant `discount_amount ≤ total_amount` is violated (createOrder never
caps a fixed-amount discount). -/
theorem createOrder_uncapped_discount_cex :
    ((createOrder 0 inC1cex stC1cex).1).map
      (fun o => (o.total_amount, o.discount_amount, o.final_amount)) =
      .ok (30, 50, -20) ∧
    ¬ ((50 : ℚ) ≤ (30 : ℚ)) := by
  have h : ((createOrder 0 inC1cex stC1cex).1).map
      (fun o => (o.total_amount, o.discount_amount, o.final_amount)) =
      .ok (pgRound2 ((0:ℚ) + 30 * ((1:Int):ℚ)), pgRound2 50,
           pgRound2 (((0:ℚ) + 30 * ((1:Int):ℚ)) - 50)) := rfl
  constructor
  · rw [h]
    norm_num [pgRound2, Prod.ext_iff]
  · norm_num

/-- The order record inserted by a successful `createOrder`. -/
def mkNewOrder (now : Int) (input : CreateOrderInput) (st : DBState)
    (total : ℚ) (cid : Option Nat) (d : ℚ) : Order :=
  { id := st.nextOrderId, user_id := input.user_id,
    total_amount := pgRound2 total, discount_amount := pgRound2 d,
    final_amount := pgRound2 (total - d), coupon_id := cid,
    status := .pending, payment_status := .pending,
    created_at := now, updated_at := now }

/-- The full result of a successful `createOrder`, used to evaluate the
handler at concrete stores. -/
theorem createOrder_ok_result {now : Int} {input : CreateOrderInput} {st : DBState}
    {total : ℚ} {cid : Option Nat} {d : ℚ} {coupons2 : List Coupon}
    (hu : (st.users.find? (fun u => u.id == input.user_id)).isSome = true)
    (ht : checkItemsTotal st.products input.items = .ok total)
    (hc : applyCoupon now input.coupon_code total st.coupons = .ok (cid, d, coupons2)) :
    (createOrder now input st).1 = .ok (mkNewOrder now input st total cid d) ∧
    (createOrder now input st).2 =
      insertItems now st.nextOrderId input.items
        { st with
          coupons := coupons2,
          orders := st.orders ++ [mkNewOrder now input st total cid d],
          nextOrderId := st.nextOrderId + 1 } := by
  unfold createOrder
  cases hfu : st.users.find? (fun u => u.id == input.user_id) with
  | none => rw [hfu] at hu; cases hu
  | some u =>
    simp only [hfu, ht, hc]
    exact ⟨rfl, rfl⟩

/-- The coupon block resolves a matched percentage coupon to the rounded
percentage discount and bumps its usage counter. -/
theorem applyCoupon_percentage {now : Int} {code : String} {total : ℚ}
    {coupons : List Coupon} {c : Coupon} {p : ℚ}
    (hfind : coupons.find? (fun x => x.code == code && x.is_active) = some c)
    (hp : c.discount_percentage = some p)
    (hE : couponExpired now c = false) (hM : couponOverCapB c = false)
    (hMin : couponBelowMinB total c = false) :
    applyCoupon now (some code) total coupons =
      .ok (some c.id, jsRound3 (total * p / 100), bumpUses coupons c.id) := by
  unfold applyCoupon
  simp only [hfind, hE, hM, hMin, hp]
  simp

/-- C4 (amended): the discount a percentage coupon contributes to the
persisted order is `orderAmount * percentage / 100` rounded first to three
decimals by the handler (`Math.round(x*1000)/1000`) and then to two
decimals by the `numeric(10,2)` column — not the exact product; the spec's
scenario values `discount 6.00, final 53.98` for a 10% coupon on 59.98 are
what this double rounding produces (the exact product is 5.998). -/
theorem createOrder_percentage_rounding (now : Int) (input : CreateOrderInput)
    (st : DBState) (code : String) (c : Coupon) (p : ℚ) (total : ℚ) (ord : Order)
    (hcode : input.coupon_code = some code)
    (hfind : st.coupons.find? (fun x => x.code == code && x.is_active) = some c)
    (hp : c.discount_percentage = some p)
    (hE : couponExpired now c = false) (hM : couponOverCapB c = false)
    (hMin : couponBelowMinB total c = false)
    (ht : checkItemsTotal st.products input.items = .ok total)
    (hok : (createOrder now input st).1 = .ok ord) :
    ord.discount_amount = pgRound2 (jsRound3 (total * p / 100)) ∧
    ord.final_amount = pgRound2 (total - jsRound3 (total * p / 100)) ∧
    ord.total_amount = pgRound2 total := by
  have hc : applyCoupon now (some code) total st.coupons =
      .ok (some c.id, jsRound3 (total * p / 100), bumpUses st.coupons c.id) :=
    applyCoupon_percentage hfind hp hE hM hMin
  rw [← hcode] at hc
  have h := createOrder_ok_fields ht hc hok
  subst h
  exact ⟨rfl, rfl, rfl⟩

/-- Store for C4: the spec's `SAVE10` scenario (10% coupon, min order 50,
order of two items at 29.99). -/
def stC4 : DBState :=
  { users := [⟨1⟩], products := [⟨1, none, none⟩],
    coupons := [⟨1, "SAVE10", some 10, none, some 50, some 100, 0, none, true, 0, 0⟩],
    orders := [], orderItems := [], downloads := [],
    nextOrderId := 1, nextOrderItemId := 1, nextDownloadId := 1,
    downloadInsertFails := false }

/-- Input for C4. -/
def inC4 : CreateOrderInput := ⟨1, some "SAVE10", [⟨1, 2, 2999/100⟩]⟩

/-- The `SAVE10` coupon row. -/
def cC4 : Coupon := ⟨1, "SAVE10", some 10, none, some 50, some 100, 0, none, true, 0, 0⟩

/-- The order persisted by the C4 scenario. -/
def ordC4 : Order := ⟨1, 1, 5998/100, 6, 5398/100, some 1, .pending, .pending, 5, 5⟩

/-- Checkout of the C4 scenario: the order actually persisted. -/
theorem createOrder_save10_eval :
    (createOrder 5 inC4 stC4).1 = .ok ordC4 := by
  have ht : checkItemsTotal stC4.products inC4.items = .ok (5998/100) := by
    have h2 : checkItemsTotal stC4.products inC4.items =
        .ok ((0:ℚ) + 2999/100 * ((2:Int):ℚ)) := rfl
    rw [h2]; norm_num
  have hfind : stC4.coupons.find? (fun x => x.code == "SAVE10" && x.is_active) =
      some cC4 := rfl
  have hMin : couponBelowMinB (5998/100) cC4 = false := by
    norm_num [couponBelowMinB, cC4]
  have hc : applyCoupon 5 inC4.coupon_code (5998/100) stC4.coupons =
      .ok (some 1, jsRound3 ((5998/100 : ℚ) * 10 / 100), bumpUses stC4.coupons 1) :=
    applyCoupon_percentage hfind rfl rfl rfl hMin
  have hu : stC4.users.find? (fun u => u.id == inC4.user_id) = some ⟨1⟩ := rfl
  have h := (createOrder_ok_result (by rw [hu]; rfl) ht hc).1
  rw [h]
  norm_num [Order.mk.injEq, mkNewOrder, ordC4, stC4, inC4, pgRound2, jsRound3, jsRound]

/-- Witness for C4: at the spec's scenario the theorem applies, and the
rounding formula evaluates to exactly `discount 6.00, final 53.98`. -/
theorem createOrder_percentage_rounding_witness :
    (inC4.coupon_code = some "SAVE10") ∧
    (stC4.coupons.find? (fun x => x.code == "SAVE10" && x.is_active) = some cC4) ∧
    (cC4.discount_percentage = some 10) ∧
    (couponExpired 5 cC4 = false) ∧ (couponOverCapB cC4 = false) ∧
    (couponBelowMinB (5998/100) cC4 = false) ∧
    (checkItemsTotal stC4.products inC4.items = .ok (5998/100)) ∧
    ((createOrder 5 inC4 stC4).1 = .ok ordC4) ∧
    (ordC4.discount_amount = pgRound2 (jsRound3 ((5998/100) * 10 / 100)) ∧
     ordC4.final_amount = pgRound2 ((5998/100) - jsRound3 ((5998/100) * 10 / 100)) ∧
     ordC4.total_amount = pgRound2 (5998/100)) ∧
    pgRound2 (jsRound3 ((5998/100) * 10 / 100)) = 6 ∧
    pgRound2 ((5998/100) - jsRound3 ((5998/100) * 10 / 100)) = 5398/100 := by
  have ht : checkItemsTotal stC4.products inC4.items = .ok (5998/100) := by
    have h2 : checkItemsTotal stC4.products inC4.items =
        .ok ((0:ℚ) + 2999/100 * ((2:Int):ℚ)) := rfl
    rw [h2]; norm_num
  have hMin : couponBelowMinB (5998/100) cC4 = false := by
    norm_num [couponBelowMinB, cC4]
  refine ⟨rfl, rfl, rfl, rfl, rfl, hMin, ht, createOrder_save10_eval, ?_, ?_, ?_⟩
  · exact createOrder_percentage_rounding 5 inC4 stC4 "SAVE10" cC4 10 (5998/100) ordC4
      rfl rfl rfl rfl rfl hMin ht createOrder_save10_eval
  · norm_num [pgRound2, jsRound3, jsRound]
  · norm_num [pgRound2, jsRound3, jsRound]

/-- Counterexample for C4 as stated: in the spec's own scenario the
persisted discount is 6.00, which is not the exact value
`59.98 * 10 / 100 = 5.998` — so "the discount applied at checkout equals
orderAmount * percentage / 100 exactly" is false on the code. -/
theorem createOrder_discount_not_exact_cex :
    ((createOrder 5 inC4 stC4).1).map (fun o => o.discount_amount) = .ok 6 ∧
    (5998/100 : ℚ) * 10 / 100 = 5998/1000 ∧
    ¬ ((6 : ℚ) = 5998/1000) := by
  refine ⟨?_, by norm_num, by norm_num⟩
  rw [createOrder_save10_eval]
  rfl

/-! ## C2: checkout validation failures -/

/-- A matched coupon failing one of its validation checks aborts the
coupon block with an error. -/
theorem applyCoupon_invalid {now : Int} {code : String} {total : ℚ}
    {coupons : List Coupon} {c : Coupon}
    (hfind : coupons.find? (fun x => x.code == code && x.is_active) = some c)
    (hbad : couponExpired now c = true ∨ couponOverCapB c = true ∨
      couponBelowMinB total c = true) :
    ∃ e, applyCoupon now (some code) total coupons = .error e := by
  unfold applyCoupon
  cases hE : couponExpired now c with
  | true => exact ⟨"Coupon has expired", by simp [hfind, hE]⟩
  | false =>
    cases hM : couponOverCapB c with
    | true => exact ⟨"Coupon usage limit exceeded", by simp [hfind, hE, hM]⟩
    | false =>
      cases hMin : couponBelowMinB total c with
      | true => exact ⟨"Minimum order amount not met", by simp [hfind, hE, hM, hMin]⟩
      | false =>
        rcases hbad with h | h | h
        · rw [hE] at h; cases h
        · rw [hM] at h; cases h
        · rw [hMin] at h; cases h

/-- C2 (amended): checkout aborts with an error and leaves the store
untouched when the user is missing, when a line item's product is missing,
or when a coupon code matches an active coupon that fails its validation
(expired, cap reached, or below the minimum).  A coupon code matching no
active coupon, however, does not fail the call: the order is created with
zero discount, no coupon reference, and no coupon-usage change (see the
counterexample). -/
theorem createOrder_validation_behavior (now : Int) (input : CreateOrderInput)
    (st : DBState) :
    (st.users.find? (fun u => u.id == input.user_id) = none →
      createOrder now input st = (.error "User not found", st)) ∧
    (∀ e, (st.users.find? (fun u => u.id == input.user_id)).isSome = true →
      checkItemsTotal st.products input.items = .error e →
      createOrder now input st = (.error e, st)) ∧
    (∀ code c total, (st.users.find? (fun u => u.id == input.user_id)).isSome = true →
      input.coupon_code = some code →
      checkItemsTotal st.products input.items = .ok total →
      st.coupons.find? (fun x => x.code == code && x.is_active) = some c →
      (couponExpired now c = true ∨ couponOverCapB c = true ∨
        couponBelowMinB total c = true) →
      ∃ e, createOrder now input st = (.error e, st)) ∧
    (∀ code total, (st.users.find? (fun u => u.id == input.user_id)).isSome = true →
      input.coupon_code = some code →
      checkItemsTotal st.products input.items = .ok total →
      st.coupons.find? (fun x => x.code == code && x.is_active) = none →
      ∃ ord, (createOrder now input st).1 = .ok ord ∧
        ord.discount_amount = 0 ∧ ord.coupon_id = none ∧
        ((createOrder now input st).2).coupons = st.coupons) := by
  refine ⟨?_, ?_, ?_, ?_⟩
  · intro h
    unfold createOrder
    rw [h]
  · intro e hu he
    unfold createOrder
    cases hfu : st.users.find? (fun u => u.id == input.user_id) with
    | none => rw [hfu] at hu; cases hu
    | some u => simp only [hfu, he]
  · intro code c total hu hcode ht hfind hbad
    obtain ⟨e, he⟩ := applyCoupon_invalid hfind hbad
    rw [← hcode] at he
    refine ⟨e, ?_⟩
    unfold createOrder
    cases hfu : st.users.find? (fun u => u.id == input.user_id) with
    | none => rw [hfu] at hu; cases hu
    | some u => simp only [hfu, ht, he]
  · intro code total hu hcode ht hfind
    have hc : applyCoupon now input.coupon_code total st.coupons =
        .ok (none, 0, st.coupons) := by
      rw [hcode]
      unfold applyCoupon
      simp only [hfind]
    obtain ⟨hok, hst⟩ := createOrder_ok_result hu ht hc
    refine ⟨_, hok, ?_, rfl, ?_⟩
    · show pgRound2 0 = 0
      norm_num [pgRound2]
    · rw [hst]
      exact (insertItems_frame now st.nextOrderId input.items _).2.2.1

/-- Store for the C2 witness and counterexample: a user and a product
exist, no coupon matches the submitted code. -/
def stC2 : DBState :=
  { users := [⟨1⟩], products := [⟨1, none, none⟩], coupons := [],
    orders := [], orderItems := [], downloads := [],
    nextOrderId := 1, nextOrderItemId := 1, nextDownloadId := 1,
    downloadInsertFails := false }

/-- Input for C2: checkout with the unknown coupon code `NOPE`. -/
def inC2 : CreateOrderInput := ⟨1, some "NOPE", [⟨1, 1, 30⟩]⟩

/-- Witness for C2: the unmatched-coupon conjunct of the theorem applies at
a concrete store. -/
theorem createOrder_validation_behavior_witness :
    ∃ ord, (createOrder 0 inC2 stC2).1 = .ok ord ∧
      ord.discount_amount = 0 ∧ ord.coupon_id = none ∧
      ((createOrder 0 inC2 stC2).2).coupons = stC2.coupons :=
  (createOrder_validation_behavior 0 inC2 stC2).2.2.2 "NOPE" ((0:ℚ) + 30 * ((1:Int):ℚ))
    rfl rfl rfl rfl

/-- Counterexample for C2 as stated: with a coupon code matching no
existing coupon, `createOrder` succeeds (it does not fail with an error) —
the order is persisted with zero discount and the coupon store unchanged. -/
theorem createOrder_unknown_coupon_cex :
    ((createOrder 0 inC2 stC2).1).isOk = true ∧
    ((createOrder 0 inC2 stC2).1).map (fun o => (o.discount_amount, o.coupon_id)) =
      .ok (0, none) ∧
    ((createOrder 0 inC2 stC2).2).coupons = stC2.coupons := by
  have hok := (@createOrder_ok_result 0 inC2 stC2 ((0:ℚ) + 30 * ((1:Int):ℚ))
    none 0 stC2.coupons rfl rfl rfl).1
  have hst := (@createOrder_ok_result 0 inC2 stC2 ((0:ℚ) + 30 * ((1:Int):ℚ))
    none 0 stC2.coupons rfl rfl rfl).2
  refine ⟨?_, ?_, ?_⟩
  · rw [hok]; rfl
  · rw [hok]
    have : pgRound2 0 = 0 := by norm_num [pgRound2]
    simp [Except.map, mkNewOrder, this]
  · rw [hst]
    exact (insertItems_frame 0 stC2.nextOrderId inC2.items _).2.2.1

/-! ## Lifecycle helper lemmas -/

/-- Updating exactly the elements matching a predicate commutes with
finding by that predicate, provided the update preserves it. -/
theorem find?_map_selective {α : Type} (p : α → Bool) (g : α → α)
    (hg : ∀ x, p x = true → p (g x) = true) :
    ∀ (l : List α) (a : α), l.find? p = some a →
      (l.map (fun x => if p x then g x else x)).find? p = some (g a) := by
  intro l
  induction l with
  | nil => intro a ha; cases ha
  | cons b t ih =>
    intro a ha
    by_cases hpb : p b = true
    · rw [List.find?_cons_of_pos _ hpb] at ha
      rw [List.map_cons, if_pos hpb, List.find?_cons_of_pos _ (hg b hpb)]
      exact congrArg some (congrArg g (Option.some.inj ha))
    · have hpb' : p b = false := by simpa using hpb
      rw [List.find?_cons_of_neg _ (by simp [hpb'])] at ha
      rw [List.map_cons, if_neg (by simp [hpb']), List.find?_cons_of_neg _ (by simp [hpb'])]
      exact ih a ha

/-- The order returned by `updateOrderStatus` and the resulting store. -/
theorem updateOrderStatus_result {now : Int} {id : Nat} {status : OrderStatus}
    {st : DBState} {o : Order}
    (hfind : st.orders.find? (fun x => x.id == id) = some o) :
    (updateOrderStatus now id status st).1 =
      .ok { o with status := status, updated_at := now } ∧
    (updateOrderStatus now id status st).2 =
      (if status = .completed ∧ o.payment_status = .completed then
        createDownloadRecords now id
          { st with orders := st.orders.map (fun x =>
              if x.id == id then { x with status := status, updated_at := now } else x) }
      else
        { st with orders := st.orders.map (fun x =>
            if x.id == id then { x with status := status, updated_at := now } else x) }) := by
  have h2 := find?_map_selective (p := fun x : Order => x.id == id)
    (g := fun x => { x with status := status, updated_at := now })
    (fun x hx => hx) st.orders o hfind
  constructor
  all_goals unfold updateOrderStatus
  all_goals simp only [hfind, h2]

/-- The order returned by `updatePaymentStatus` and the resulting store. -/
theorem updatePaymentStatus_result {now : Int} {id : Nat} {ps : PaymentStatus}
    {st : DBState} {o : Order}
    (hfind : st.orders.find? (fun x => x.id == id) = some o) :
    (updatePaymentStatus now id ps st).1 =
      .ok { o with payment_status := ps, updated_at := now } ∧
    (updatePaymentStatus now id ps st).2 =
      (if ps = .completed ∧ o.status = .completed then
        createDownloadRecords now id
          { st with orders := st.orders.map (fun x =>
              if x.id == id then { x with payment_status := ps, updated_at := now } else x) }
      else
        { st with orders := st.orders.map (fun x =>
            if x.id == id then { x with payment_status := ps, updated_at := now } else x) }) := by
  have h2 := find?_map_selective (p := fun x : Order => x.id == id)
    (g := fun x => { x with payment_status := ps, updated_at := now })
    (fun x hx => hx) st.orders o hfind
  constructor
  all_goals unfold updatePaymentStatus
  all_goals simp only [hfind, h2]

/-! ## C9: provisioning failures never block order completion -/

/-- C9: for an existing order, both lifecycle handlers return the updated
order even when every download-grant insert throws (flag
`downloadInsertFails`): `createDownloadRecords` swallows its errors, so the
caller always receives the updated order, for every target status. -/
theorem order_completion_never_blocked (now : Int) (id : Nat) (st : DBState)
    (o : Order)
    (hfind : st.orders.find? (fun x => x.id == id) = some o) :
    (∀ b : Bool, ∀ s : OrderStatus,
      (updateOrderStatus now id s { st with downloadInsertFails := b }).1 =
        .ok { o with status := s, updated_at := now }) ∧
    (∀ b : Bool, ∀ ps : PaymentStatus,
      (updatePaymentStatus now id ps { st with downloadInsertFails := b }).1 =
        .ok { o with payment_status := ps, updated_at := now }) := by
  constructor
  · intro b s
    exact (@updateOrderStatus_result now id s { st with downloadInsertFails := b } o hfind).1
  · intro b ps
    exact (@updatePaymentStatus_result now id ps { st with downloadInsertFails := b } o hfind).1

/-- Store for the C9 witness: a completed/completed order with a digital
line item, so the failing provisioning insert is actually attempted. -/
def stC9 : DBState :=
  { users := [⟨1⟩], products := [⟨1, some "https://x/f.pdf", some 5⟩], coupons := [],
    orders := [⟨1, 1, 30, 0, 30, none, .completed, .completed, 0, 0⟩],
    orderItems := [⟨1, 1, 1, 1, 30, 0⟩], downloads := [],
    nextOrderId := 2, nextOrderItemId := 2, nextDownloadId := 1,
    downloadInsertFails := false }

/-- Witness for C9: at the concrete store, completing the order with the
insert-failure flag set still returns the updated order. -/
theorem order_completion_never_blocked_witness :
    (stC9.orders.find? (fun x => x.id == 1) =
      some ⟨1, 1, 30, 0, 30, none, .completed, .completed, 0, 0⟩) ∧
    ((∀ b : Bool, ∀ s : OrderStatus,
      (updateOrderStatus 7 1 s { stC9 with downloadInsertFails := b }).1 =
        .ok { (⟨1, 1, 30, 0, 30, none, .completed, .completed, 0, 0⟩ : Order) with
              status := s, updated_at := 7 }) ∧
    (∀ b : Bool, ∀ ps : PaymentStatus,
      (updatePaymentStatus 7 1 ps { stC9 with downloadInsertFails := b }).1 =
        .ok { (⟨1, 1, 30, 0, 30, none, .completed, .completed, 0, 0⟩ : Order) with
              payment_status := ps, updated_at := 7 })) :=
  ⟨rfl, order_completion_never_blocked 7 1 stC9 _ rfl⟩

/-! ## C8: token validation re-checks the grant and prunes the store -/

/-- A deleted token can no longer be looked up. -/
theorem lookupToken_delete (store : TokenStore) (token : String) :
    lookupToken (deleteToken store token) token = none := by
  unfold lookupToken deleteToken
  rw [find?_filter_ne]
  rfl

/-- C8: whenever a stored token is past its own expiry, or the underlying
grant no longer validates (so also for a live token over a dead grant),
`validateDownloadToken` answers `valid = false` and removes the token from
the store. -/
theorem validateDownloadToken_rejects (now : Int) (token : String)
    (store : TokenStore) (st : DBState) (td : TokenEntry)
    (hlook : lookupToken store token = some td)
    (hbad : td.expires < now ∨
      (validateDownload now td.downloadId td.userId st).valid = false) :
    ((validateDownloadToken now token store st).1).valid = false ∧
    lookupToken (validateDownloadToken now token store st).2 token = none := by
  unfold validateDownloadToken
  simp only [hlook]
  by_cases hexp : td.expires < now
  · simp [hexp, lookupToken_delete]
  · have hv : (validateDownload now td.downloadId td.userId st).valid = false :=
      hbad.resolve_left hexp
    simp [hexp, hv, lookupToken_delete]

/-- Store contents for the C8 witness: a token within its 15-minute window
whose grant has been forced past its expiry (the spec's scenario). -/
def stC8 : DBState :=
  { users := [⟨1⟩], products := [⟨1, some "https://x/f.pdf", some 5⟩], coupons := [],
    orders := [], orderItems := [],
    downloads := [⟨1, 1, 1, 1, 0, some 10, 0⟩],
    nextOrderId := 1, nextOrderItemId := 1, nextDownloadId := 2,
    downloadInsertFails := false }

/-- Token store for the C8 witness. -/
def storeC8 : TokenStore := [("tok", ⟨1, 1, 1000⟩)]

/-- Witness for C8: the token's own window (expires 1000) has not elapsed
at `now = 20`, but the grant expired at 10, so validation fails and the
token is removed. -/
theorem validateDownloadToken_rejects_witness :
    (lookupToken storeC8 "tok" = some ⟨1, 1, 1000⟩) ∧
    ((1000 : Int) < 20 ∨
      (validateDownload 20 1 1 stC8).valid = false) ∧
    (((validateDownloadToken 20 "tok" storeC8 stC8).1).valid = false ∧
      lookupToken (validateDownloadToken 20 "tok" storeC8 stC8).2 "tok" = none) :=
  ⟨rfl, Or.inr rfl,
    validateDownloadToken_rejects 20 "tok" storeC8 stC8 ⟨1, 1, 1000⟩ rfl (Or.inr rfl)⟩

/-! ## C7: download-count cap -/

/-- The store after `k` calls of `incrementDownloadCount` on one grant. -/
def incAfter (dlId : Nat) (st : DBState) : Nat → DBState
  | 0 => st
  | k + 1 => (incrementDownloadCount dlId (incAfter dlId st k)).2

/-- One successful increment: the returned grant and the store change. -/
theorem incrementDownloadCount_step {st : DBState} {d : DownloadRec} {p : Product}
    {dlId : Nat}
    (hd : st.downloads.find? (fun x => x.id == dlId) = some d)
    (hp : st.products.find? (fun x => x.id == d.product_id) = some p)
    (hlim : limitReached p d = false) :
    (incrementDownloadCount dlId st).1 =
      .ok { d with download_count := d.download_count + 1 } ∧
    ((incrementDownloadCount dlId st).2).downloads.find? (fun x => x.id == dlId) =
      some { d with download_count := d.download_count + 1 } ∧
    ((incrementDownloadCount dlId st).2).products = st.products := by
  have h2 : (st.downloads.map (fun x =>
      if x.id == dlId then { x with download_count := x.download_count + 1 } else x)).find?
      (fun x => x.id == dlId) = some { d with download_count := d.download_count + 1 } :=
    find?_map_selective (fun x => x.id == dlId)
      (fun x => { x with download_count := x.download_count + 1 })
      (fun x hx => hx) st.downloads d hd
  unfold incrementDownloadCount
  refine ⟨?_, ?_, ?_⟩
  all_goals simp only [hd, hp, hlim]
  all_goals rw [h2]
  · rfl
  · exact h2
  · rfl

/-- A blocked increment: the call errors and changes nothing. -/
theorem incrementDownloadCount_limit {st : DBState} {d : DownloadRec} {p : Product}
    {dlId : Nat}
    (hd : st.downloads.find? (fun x => x.id == dlId) = some d)
    (hp : st.products.find? (fun x => x.id == d.product_id) = some p)
    (hlim : limitReached p d = true) :
    incrementDownloadCount dlId st = (.error "Download limit exceeded", st) := by
  unfold incrementDownloadCount
  simp [hd, hp, hlim]

/-- Invariant of the increment chain while the limit check keeps passing. -/
theorem incAfter_invariant {st : DBState} {d : DownloadRec} {p : Product} {dlId : Nat}
    (hd : st.downloads.find? (fun x => x.id == dlId) = some d)
    (hp : st.products.find? (fun x => x.id == d.product_id) = some p)
    (h0 : d.download_count = 0) :
    ∀ k : Nat,
      (∀ j : Nat, j < k →
        limitReached p { d with download_count := (j : Int) } = false) →
      (incAfter dlId st k).downloads.find? (fun x => x.id == dlId) =
        some { d with download_count := (k : Int) } ∧
      (incAfter dlId st k).products = st.products := by
  intro k
  induction k with
  | zero =>
    intro _
    have hc0 : ({ d with download_count := ((0 : Nat) : Int) }) = d := by
      rw [Int.natCast_zero, ← h0]
    rw [hc0]
    exact ⟨hd, rfl⟩
  | succ k ih =>
    intro hok
    have ihk := ih (fun j hj => hok j (Nat.lt_succ_of_lt hj))
    have hpk : ((incAfter dlId st k).products.find?
        (fun x => x.id == ({ d with download_count := (k : Int) } : DownloadRec).product_id)) =
        some p := by
      rw [ihk.2]
      exact hp
    have hlimk : limitReached p { d with download_count := (k : Int) } = false :=
      hok k (Nat.lt_succ_self k)
    have step := incrementDownloadCount_step ihk.1 hpk hlimk
    refine ⟨?_, ?_⟩
    · show ((incrementDownloadCount dlId (incAfter dlId st k)).2).downloads.find?
        (fun x => x.id == dlId) = _
      rw [step.2.1]
      congr 1
    · show ((incrementDownloadCount dlId (incAfter dlId st k)).2).products = st.products
      rw [step.2.2, ihk.2]

/-- C7: a grant whose product carries `download_limit = N` (necessarily
`N ≥ 1`: the product schemas only accept positive limits) accepts exactly
`N` increments — the `k`-th call succeeds and raises `download_count` from
`k` to `k+1` — and the `(N+1)`-th call fails with the download-limit error;
a grant whose product has no `download_limit` accepts every increment. -/
theorem incrementDownloadCount_cap (dlId : Nat) (st : DBState) (d : DownloadRec)
    (p : Product)
    (hd : st.downloads.find? (fun x => x.id == dlId) = some d)
    (hp : st.products.find? (fun x => x.id == d.product_id) = some p)
    (h0 : d.download_count = 0) :
    (∀ N : Nat, p.download_limit = some (N : Int) → 1 ≤ N →
      (∀ k : Nat, k < N →
        ((incrementDownloadCount dlId (incAfter dlId st k)).1).isOk = true ∧
        (incAfter dlId st (k + 1)).downloads.find? (fun x => x.id == dlId) =
          some { d with download_count := ((k + 1 : Nat) : Int) }) ∧
      incrementDownloadCount dlId (incAfter dlId st N) =
        (.error "Download limit exceeded", incAfter dlId st N)) ∧
    (p.download_limit = none →
      ∀ k : Nat, ((incrementDownloadCount dlId (incAfter dlId st k)).1).isOk = true) := by
  constructor
  · intro N hN hN1
    have hok : ∀ j : Nat, j < N →
        limitReached p { d with download_count := (j : Int) } = false := by
      intro j hj
      simp only [limitReached, hN]
      simp only [Bool.and_eq_false_iff, decide_eq_false_iff_not]
      right
      omega
    constructor
    · intro k hk
      have ihk := incAfter_invariant hd hp h0 k (fun j hj => hok j (hj.trans hk))
      have hpk : ((incAfter dlId st k).products.find?
          (fun x => x.id == ({ d with download_count := (k : Int) } : DownloadRec).product_id)) =
          some p := by
        rw [ihk.2]; exact hp
      have step := incrementDownloadCount_step ihk.1 hpk (hok k hk)
      refine ⟨by rw [step.1]; rfl, ?_⟩
      show ((incrementDownloadCount dlId (incAfter dlId st k)).2).downloads.find?
        (fun x => x.id == dlId) = _
      rw [step.2.1]
      congr 1
    · have ihN := incAfter_invariant hd hp h0 N hok
      have hpN : ((incAfter dlId st N).products.find?
          (fun x => x.id == ({ d with download_count := (N : Int) } : DownloadRec).product_id)) =
          some p := by
        rw [ihN.2]; exact hp
      have hlimN : limitReached p { d with download_count := (N : Int) } = true := by
        simp only [limitReached, hN]
        simp only [Bool.and_eq_true, decide_eq_true_eq]
        constructor
        · omega
        · exact le_refl _
      exact incrementDownloadCount_limit ihN.1 hpN hlimN
  · intro hnone k
    have hok : ∀ j : Nat, j < k →
        limitReached p { d with download_count := (j : Int) } = false := by
      intro j _
      simp [limitReached, hnone]
    have ihk := incAfter_invariant hd hp h0 k hok
    have hpk : ((incAfter dlId st k).products.find?
        (fun x => x.id == ({ d with download_count := (k : Int) } : DownloadRec).product_id)) =
        some p := by
      rw [ihk.2]; exact hp
    have hlimk : limitReached p { d with download_count := (k : Int) } = false := by
      simp [limitReached, hnone]
    have step := incrementDownloadCount_step ihk.1 hpk hlimk
    rw [step.1]
    rfl

/-- Store for the C7 witness: one grant at count 0 over a product with
`download_limit = 2`. -/
def stC7 : DBState :=
  { users := [⟨1⟩], products := [⟨1, some "https://x/f.pdf", some 2⟩], coupons := [],
    orders := [], orderItems := [],
    downloads := [⟨1, 1, 1, 1, 0, none, 0⟩],
    nextOrderId := 1, nextOrderItemId := 1, nextDownloadId := 2,
    downloadInsertFails := false }

/-- Witness for C7: the hypotheses hold at the concrete store and the
theorem applies (limit 2: two increments succeed, the third fails). -/
theorem incrementDownloadCount_cap_witness :
    (stC7.downloads.find? (fun x => x.id == 1) = some ⟨1, 1, 1, 1, 0, none, 0⟩) ∧
    (stC7.products.find? (fun x => x.id == 1) = some ⟨1, some "https://x/f.pdf", some 2⟩) ∧
    ((∀ N : Nat, (some ((2:Nat) : Int) : Option Int) = some (N : Int) → 1 ≤ N →
      (∀ k : Nat, k < N →
        ((incrementDownloadCount 1 (incAfter 1 stC7 k)).1).isOk = true ∧
        (incAfter 1 stC7 (k + 1)).downloads.find? (fun x => x.id == 1) =
          some { (⟨1, 1, 1, 1, 0, none, 0⟩ : DownloadRec) with
                 download_count := ((k + 1 : Nat) : Int) }) ∧
      incrementDownloadCount 1 (incAfter 1 stC7 N) =
        (.error "Download limit exceeded", incAfter 1 stC7 N)) ∧
    ((some ((2:Nat) : Int) : Option Int) = none →
      ∀ k : Nat, ((incrementDownloadCount 1 (incAfter 1 stC7 k)).1).isOk = true)) := by
  refine ⟨rfl, rfl, ?_⟩
  have h := incrementDownloadCount_cap 1 stC7 ⟨1, 1, 1, 1, 0, none, 0⟩
    ⟨1, some "https://x/f.pdf", some 2⟩ rfl rfl rfl
  exact h

/-! ## C6: coupon usage cap through checkout -/

/-- The store after `k` checkouts with a fixed input. -/
def redeemAfter (now : Int) (input : CreateOrderInput) (st : DBState) : Nat → DBState
  | 0 => st
  | k + 1 => (createOrder now input (redeemAfter now input st k)).2

/-- The coupon block accepts a valid matched coupon, returning its id, some
discount, and the store with its `current_uses` bumped. -/
theorem applyCoupon_ok_of_valid {now : Int} {code : String} {total : ℚ}
    {coupons : List Coupon} {c : Coupon}
    (hfind : coupons.find? (fun x => x.code == code && x.is_active) = some c)
    (hE : couponExpired now c = false) (hcap : couponOverCapB c = false)
    (hMin : couponBelowMinB total c = false) :
    ∃ d, applyCoupon now (some code) total coupons =
      .ok (some c.id, d, bumpUses coupons c.id) := by
  unfold applyCoupon
  simp [hfind, hE, hcap, hMin]

/-- The coupon block rejects a matched coupon past its usage cap. -/
theorem applyCoupon_cap_error {now : Int} {code : String} {total : ℚ}
    {coupons : List Coupon} {c : Coupon}
    (hfind : coupons.find? (fun x => x.code == code && x.is_active) = some c)
    (hE : couponExpired now c = false) (hcap : couponOverCapB c = true) :
    applyCoupon now (some code) total coupons =
      .error "Coupon usage limit exceeded" := by
  unfold applyCoupon
  simp [hfind, hE, hcap]

/-- A coupon-block error aborts `createOrder` with the same error and no
store change. -/
theorem createOrder_applyCoupon_error {now : Int} {input : CreateOrderInput}
    {st : DBState} {total : ℚ} {e : String}
    (hu : (st.users.find? (fun u => u.id == input.user_id)).isSome = true)
    (ht : checkItemsTotal st.products input.items = .ok total)
    (hc : applyCoupon now input.coupon_code total st.coupons = .error e) :
    createOrder now input st = (.error e, st) := by
  unfold createOrder
  cases hfu : st.users.find? (fun u => u.id == input.user_id) with
  | none => rw [hfu] at hu; cases hu
  | some u => simp only [hfu, ht, hc]

/-- Bumping the usage counter of the found coupon commutes with the
active-code lookup. -/
theorem bumpUses_find {coupons : List Coupon} {code : String} {c : Coupon}
    (hfind : coupons.find? (fun x => x.code == code && x.is_active) = some c) :
    (bumpUses coupons c.id).find? (fun x => x.code == code && x.is_active) =
      some { c with current_uses := c.current_uses + 1 } := by
  unfold bumpUses
  have hcomm := find?_map_comm
    (fun x : Coupon => if x.id == c.id then { x with current_uses := x.current_uses + 1 } else x)
    (fun x => x.code == code && x.is_active)
    (fun x => by by_cases h : x.id == c.id <;> simp [h])
    coupons
  rw [hcomm, hfind]
  simp

/-- One checkout against a valid matched coupon: it succeeds, bumps the
coupon, and leaves users and products alone. -/
theorem createOrder_coupon_step {now : Int} {input : CreateOrderInput} {st : DBState}
    {code : String} {c : Coupon} {total : ℚ}
    (hcode : input.coupon_code = some code)
    (hu : (st.users.find? (fun u => u.id == input.user_id)).isSome = true)
    (ht : checkItemsTotal st.products input.items = .ok total)
    (hfind : st.coupons.find? (fun x => x.code == code && x.is_active) = some c)
    (hE : couponExpired now c = false) (hcap : couponOverCapB c = false)
    (hMin : couponBelowMinB total c = false) :
    ((createOrder now input st).1).isOk = true ∧
    ((createOrder now input st).2).users = st.users ∧
    ((createOrder now input st).2).products = st.products ∧
    ((createOrder now input st).2).coupons.find?
      (fun x => x.code == code && x.is_active) =
        some { c with current_uses := c.current_uses + 1 } := by
  obtain ⟨d, hc⟩ := applyCoupon_ok_of_valid hfind hE hcap hMin
  rw [← hcode] at hc
  obtain ⟨hok, hst⟩ := createOrder_ok_result hu ht hc
  have frame := insertItems_frame now st.nextOrderId input.items
    { st with
      coupons := bumpUses st.coupons c.id,
      orders := st.orders ++ [mkNewOrder now input st total (some c.id) d],
      nextOrderId := st.nextOrderId + 1 }
  refine ⟨by rw [hok]; rfl, ?_, ?_, ?_⟩
  · rw [hst, frame.1]
  · rw [hst, frame.2.1]
  · rw [hst, frame.2.2.1]
    exact bumpUses_find hfind

/-- Invariant of the redemption chain while the cap has not been hit. -/
theorem redeemAfter_invariant {now : Int} {input : CreateOrderInput} {st : DBState}
    {code : String} {c : Coupon} {total : ℚ}
    (hcode : input.coupon_code = some code)
    (hu : (st.users.find? (fun u => u.id == input.user_id)).isSome = true)
    (ht : checkItemsTotal st.products input.items = .ok total)
    (hfind : st.coupons.find? (fun x => x.code == code && x.is_active) = some c)
    (hE : couponExpired now c = false)
    (hMin : couponBelowMinB total c = false)
    (h0 : c.current_uses = 0) :
    ∀ k : Nat,
      (∀ j : Nat, j < k →
        couponOverCapB { c with current_uses := (j : Int) } = false) →
      (redeemAfter now input st k).users = st.users ∧
      (redeemAfter now input st k).products = st.products ∧
      (redeemAfter now input st k).coupons.find?
        (fun x => x.code == code && x.is_active) =
          some { c with current_uses := (k : Int) } := by
  intro k
  induction k with
  | zero =>
    intro _
    have hc0 : ({ c with current_uses := ((0 : Nat) : Int) }) = c := by
      rw [Int.natCast_zero, ← h0]
    rw [hc0]
    exact ⟨rfl, rfl, hfind⟩
  | succ k ih =>
    intro hokcap
    have ihk := ih (fun j hj => hokcap j (Nat.lt_succ_of_lt hj))
    have hu_k : ((redeemAfter now input st k).users.find?
        (fun u => u.id == input.user_id)).isSome = true := by
      rw [ihk.1]; exact hu
    have ht_k : checkItemsTotal (redeemAfter now input st k).products input.items =
        .ok total := by
      rw [ihk.2.1]; exact ht
    have hE_k : couponExpired now { c with current_uses := (k : Int) } = false := hE
    have hMin_k : couponBelowMinB total { c with current_uses := (k : Int) } = false := hMin
    have hcap_k : couponOverCapB { c with current_uses := (k : Int) } = false :=
      hokcap k (Nat.lt_succ_self k)
    have step := createOrder_coupon_step hcode hu_k ht_k ihk.2.2 hE_k hcap_k hMin_k
    refine ⟨?_, ?_, ?_⟩
    · show ((createOrder now input (redeemAfter now input st k)).2).users = st.users
      rw [step.2.1, ihk.1]
    · show ((createOrder now input (redeemAfter now input st k)).2).products = st.products
      rw [step.2.2.1, ihk.2.1]
    · show ((createOrder now input (redeemAfter now input st k)).2).coupons.find?
        (fun x => x.code == code && x.is_active) = _
      rw [step.2.2.2]
      congr 1

/-- C6: a coupon with usage cap `m` (necessarily `m ≥ 1`: the coupon
schemas only accept a positive `max_uses`), starting from `current_uses = 0`
and otherwise valid, is redeemed successfully by each of the first `m`
checkouts — the `k`-th success leaving `current_uses = k+1` — and the
`(m+1)`-th checkout fails with the usage-limit error, leaving the store
untouched by that failing call. -/
theorem coupon_usage_cap (now : Int) (input : CreateOrderInput) (st : DBState)
    (code : String) (c : Coupon) (total : ℚ) (m : Nat)
    (hcode : input.coupon_code = some code)
    (hu : (st.users.find? (fun u => u.id == input.user_id)).isSome = true)
    (ht : checkItemsTotal st.products input.items = .ok total)
    (hfind : st.coupons.find? (fun x => x.code == code && x.is_active) = some c)
    (hE : couponExpired now c = false)
    (hMin : couponBelowMinB total c = false)
    (h0 : c.current_uses = 0)
    (hm : c.max_uses = some (m : Int)) (hm1 : 1 ≤ m) :
    (∀ k : Nat, k < m →
      ((createOrder now input (redeemAfter now input st k)).1).isOk = true ∧
      (redeemAfter now input st (k + 1)).coupons.find?
        (fun x => x.code == code && x.is_active) =
          some { c with current_uses := ((k + 1 : Nat) : Int) }) ∧
    createOrder now input (redeemAfter now input st m) =
      (.error "Coupon usage limit exceeded", redeemAfter now input st m) := by
  have hokcap : ∀ j : Nat, j < m →
      couponOverCapB { c with current_uses := (j : Int) } = false := by
    intro j hj
    simp only [couponOverCapB, hm]
    simp only [Bool.and_eq_false_iff, decide_eq_false_iff_not]
    right
    omega
  constructor
  · intro k hk
    have ihk := redeemAfter_invariant hcode hu ht hfind hE hMin h0 k
      (fun j hj => hokcap j (hj.trans hk))
    have hu_k : ((redeemAfter now input st k).users.find?
        (fun u => u.id == input.user_id)).isSome = true := by
      rw [ihk.1]; exact hu
    have ht_k : checkItemsTotal (redeemAfter now input st k).products input.items =
        .ok total := by
      rw [ihk.2.1]; exact ht
    have step := createOrder_coupon_step hcode hu_k ht_k ihk.2.2
      (hE) (hokcap k hk) (hMin)
    refine ⟨step.1, ?_⟩
    show ((createOrder now input (redeemAfter now input st k)).2).coupons.find?
      (fun x => x.code == code && x.is_active) = _
    rw [step.2.2.2]
    congr 1
  · have ihm := redeemAfter_invariant hcode hu ht hfind hE hMin h0 m hokcap
    have hu_m : ((redeemAfter now input st m).users.find?
        (fun u => u.id == input.user_id)).isSome = true := by
      rw [ihm.1]; exact hu
    have ht_m : checkItemsTotal (redeemAfter now input st m).products input.items =
        .ok total := by
      rw [ihm.2.1]; exact ht
    have hcap_m : couponOverCapB { c with current_uses := (m : Int) } = true := by
      simp only [couponOverCapB, hm]
      simp only [Bool.and_eq_true, decide_eq_true_eq]
      constructor
      · omega
      · exact le_refl _
    have hcapp : applyCoupon now (some code) total (redeemAfter now input st m).coupons =
        .error "Coupon usage limit exceeded" :=
      applyCoupon_cap_error ihm.2.2 hE hcap_m
    rw [← hcode] at hcapp
    exact createOrder_applyCoupon_error hu_m ht_m hcapp

/-- Store for the C6 witness: a capped coupon (`max_uses = 1`), a user and
a product. -/
def stC6 : DBState :=
  { users := [⟨1⟩], products := [⟨1, none, none⟩],
    coupons := [⟨1, "CAP", some 10, none, none, some 1, 0, none, true, 0, 0⟩],
    orders := [], orderItems := [], downloads := [],
    nextOrderId := 1, nextOrderItemId := 1, nextDownloadId := 1,
    downloadInsertFails := false }

/-- Input for the C6 witness. -/
def inC6 : CreateOrderInput := ⟨1, some "CAP", [⟨1, 1, 30⟩]⟩

/-- The `CAP` coupon row. -/
def cC6 : Coupon := ⟨1, "CAP", some 10, none, none, some 1, 0, none, true, 0, 0⟩

/-- Witness for C6 (cap 1): the first checkout succeeds and bumps
`current_uses` to 1; the second fails with the usage-limit error. -/
theorem coupon_usage_cap_witness :
    (inC6.coupon_code = some "CAP") ∧
    (stC6.coupons.find? (fun x => x.code == "CAP" && x.is_active) = some cC6) ∧
    (cC6.max_uses = some ((1 : Nat) : Int)) ∧
    ((∀ k : Nat, k < 1 →
      ((createOrder 2 inC6 (redeemAfter 2 inC6 stC6 k)).1).isOk = true ∧
      (redeemAfter 2 inC6 stC6 (k + 1)).coupons.find?
        (fun x => x.code == "CAP" && x.is_active) =
          some { cC6 with current_uses := ((k + 1 : Nat) : Int) }) ∧
    createOrder 2 inC6 (redeemAfter 2 inC6 stC6 1) =
      (.error "Coupon usage limit exceeded", redeemAfter 2 inC6 stC6 1)) := by
  refine ⟨rfl, rfl, rfl, ?_⟩
  exact coupon_usage_cap 2 inC6 stC6 "CAP" cC6 ((0:ℚ) + 30 * ((1:Int):ℚ)) 1
    rfl rfl rfl rfl rfl rfl rfl rfl (le_refl 1)

/-! ## C5: grant provisioning counts -/

/-- Truthiness of a product's digital-asset URL. -/
def digitalProduct (p : Product) : Bool :=
  match p.digital_file_url with
  | some u => u != ""
  | none => false

/-- Number of grants held for one (order, product, user) key. -/
def keyCount (ds : List DownloadRec) (oid pid uid : Nat) : Nat :=
  (ds.filter (fun d =>
    d.order_id == oid && d.product_id == pid && d.user_id == uid)).length

/-- Appending one grant touches exactly its own key's count. -/
theorem keyCount_append (ds : List DownloadRec) (x : DownloadRec) (oid pid uid : Nat) :
    keyCount (ds ++ [x]) oid pid uid =
      keyCount ds oid pid uid +
        (if x.order_id == oid && x.product_id == pid && x.user_id == uid then 1 else 0) := by
  unfold keyCount
  rw [List.filter_append, List.length_append]
  congr 1
  by_cases hx : (x.order_id == oid && x.product_id == pid && x.user_id == uid) = true
  · rw [if_pos hx]
    simp [List.filter, hx]
  · have hx' : (x.order_id == oid && x.product_id == pid && x.user_id == uid) = false := by
      simpa using hx
    rw [if_neg (by simp [hx'])]
    simp [List.filter, hx']

/-- A key is present iff its count is positive. -/
theorem keyCount_pos_iff (ds : List DownloadRec) (oid pid uid : Nat) :
    1 ≤ keyCount ds oid pid uid ↔
      (ds.find? (fun d =>
        d.order_id == oid && d.product_id == pid && d.user_id == uid)).isSome = true := by
  unfold keyCount
  rw [List.find?_isSome]
  constructor
  · intro h
    cases hfil : ds.filter (fun d =>
        d.order_id == oid && d.product_id == pid && d.user_id == uid) with
    | nil => rw [hfil] at h; cases h
    | cons a l =>
      have ha : a ∈ ds.filter (fun d =>
          d.order_id == oid && d.product_id == pid && d.user_id == uid) := by
        rw [hfil]; exact List.mem_cons_self a l
      have := List.mem_filter.mp ha
      exact ⟨a, this.1, this.2⟩
  · rintro ⟨x, hmem, hx⟩
    have hxin : x ∈ ds.filter (fun d =>
        d.order_id == oid && d.product_id == pid && d.user_id == uid) :=
      List.mem_filter.mpr ⟨hmem, hx⟩
    cases hfil : ds.filter (fun d =>
        d.order_id == oid && d.product_id == pid && d.user_id == uid) with
    | nil => rw [hfil] at hxin; cases hxin
    | cons a l => exact Nat.succ_le_succ (Nat.zero_le _)

/-- A store holding no grants for an order has count zero at each of the
order's keys. -/
theorem keyCount_zero_of_clean {ds : List DownloadRec} {oid : Nat}
    (h : ∀ dl ∈ ds, dl.order_id ≠ oid) (pid uid : Nat) :
    keyCount ds oid pid uid = 0 := by
  unfold keyCount
  rw [List.filter_eq_nil_iff.mpr]
  · rfl
  · intro dl hdl
    simp only [Bool.and_eq_true, beq_iff_eq, not_and]
    intro h1
    exact absurd h1.1 (h dl hdl)

/-- Unfolding of the provisioning loop on a cons cell. -/
theorem processRows_cons (now : Int) (oid : Nat) (fails : Bool) (r : GrantRow)
    (rs : List GrantRow) (ds : List DownloadRec) (n : Nat) :
    processRows now oid fails (r :: rs) ds n =
      if digitalRow r then
        if (ds.find? (fun d => d.order_id == oid && d.product_id == r.product_id &&
              d.user_id == r.user_id)).isSome then
          processRows now oid fails rs ds n
        else if fails then (ds, n)
        else processRows now oid fails rs
          (ds ++ [⟨n, r.user_id, r.product_id, oid, 0,
            (match r.dlimit with
             | some l => if l ≠ 0 then some (now + 2592000) else none
             | none => none), now⟩]) (n + 1)
      else processRows now oid fails rs ds n := rfl

/-- Effect of one non-failing provisioning pass on the count of an
arbitrary key of this order: keys covered by a digital row end up with at
least one grant, all other keys are untouched. -/
theorem processRows_keyCount (now : Int) (oid : Nat) :
    ∀ (rows : List GrantRow) (ds : List DownloadRec) (n : Nat) (pid uid : Nat),
      keyCount (processRows now oid false rows ds n).1 oid pid uid =
        if rows.any (fun r => digitalRow r && r.product_id == pid && r.user_id == uid)
        then max 1 (keyCount ds oid pid uid)
        else keyCount ds oid pid uid := by
  intro rows
  induction rows with
  | nil =>
    intro ds n pid uid
    simp [processRows]
  | cons r rs ih =>
    intro ds n pid uid
    rw [processRows_cons, List.any_cons]
    by_cases hdig : digitalRow r = true
    case neg =>
      have hdig' : digitalRow r = false := by simpa using hdig
      rw [if_neg (by simp [hdig']), ih, hdig']
      simp
    case pos =>
      rw [if_pos hdig, hdig, Bool.true_and]
      by_cases hk : r.product_id = pid ∧ r.user_id = uid
      case pos =>
        obtain ⟨hk1, hk2⟩ := hk
        subst hk1
        subst hk2
        have hcond : ((r.product_id == r.product_id && r.user_id == r.user_id) ||
            rs.any (fun x => digitalRow x && x.product_id == r.product_id &&
              x.user_id == r.user_id)) = true := by
          simp
        rw [hcond, if_pos rfl]
        by_cases hex : (ds.find? (fun d => d.order_id == oid &&
            d.product_id == r.product_id && d.user_id == r.user_id)).isSome = true
        · rw [if_pos hex, ih]
          have hpos : 1 ≤ keyCount ds oid r.product_id r.user_id :=
            (keyCount_pos_iff ds oid r.product_id r.user_id).mpr hex
          by_cases hany : rs.any (fun x => digitalRow x && x.product_id == r.product_id &&
              x.user_id == r.user_id) = true
          · rw [if_pos hany]
          · rw [if_neg hany]
            exact (max_eq_right hpos).symm
        · have hzero : keyCount ds oid r.product_id r.user_id = 0 := by
            by_contra hne
            exact hex ((keyCount_pos_iff ds oid r.product_id r.user_id).mp
              (Nat.one_le_iff_ne_zero.mpr hne))
          rw [if_neg hex, if_neg (by simp), ih, keyCount_append, hzero]
          have hm : (((⟨n, r.user_id, r.product_id, oid, 0,
              (match r.dlimit with
               | some l => if l ≠ 0 then some (now + 2592000) else none
               | none => none), now⟩ : DownloadRec)).order_id == oid &&
              ((⟨n, r.user_id, r.product_id, oid, 0,
              (match r.dlimit with
               | some l => if l ≠ 0 then some (now + 2592000) else none
               | none => none), now⟩ : DownloadRec)).product_id == r.product_id &&
              ((⟨n, r.user_id, r.product_id, oid, 0,
              (match r.dlimit with
               | some l => if l ≠ 0 then some (now + 2592000) else none
               | none => none), now⟩ : DownloadRec)).user_id == r.user_id) = true := by
            simp
          rw [hm, if_pos rfl]
          by_cases hany : rs.any (fun x => digitalRow x && x.product_id == r.product_id &&
              x.user_id == r.user_id) = true
          · rw [if_pos hany]
            decide
          · rw [if_neg hany]
            decide
      case neg =>
        have hfr : (r.product_id == pid && r.user_id == uid) = false := by
          rcases not_and_or.mp hk with h | h
          · exact Bool.and_eq_false_iff.mpr (Or.inl (beq_eq_false_iff_ne.mpr h))
          · exact Bool.and_eq_false_iff.mpr (Or.inr (beq_eq_false_iff_ne.mpr h))
        rw [hfr, Bool.false_or]
        by_cases hex : (ds.find? (fun d => d.order_id == oid &&
            d.product_id == r.product_id && d.user_id == r.user_id)).isSome = true
        · rw [if_pos hex, ih]
        · rw [if_neg hex, if_neg (by simp), ih, keyCount_append]
          have hnm : (((⟨n, r.user_id, r.product_id, oid, 0,
              (match r.dlimit with
               | some l => if l ≠ 0 then some (now + 2592000) else none
               | none => none), now⟩ : DownloadRec)).order_id == oid &&
              ((⟨n, r.user_id, r.product_id, oid, 0,
              (match r.dlimit with
               | some l => if l ≠ 0 then some (now + 2592000) else none
               | none => none), now⟩ : DownloadRec)).product_id == pid &&
              ((⟨n, r.user_id, r.product_id, oid, 0,
              (match r.dlimit with
               | some l => if l ≠ 0 then some (now + 2592000) else none
               | none => none), now⟩ : DownloadRec)).user_id == uid) = false := by
            rcases not_and_or.mp hk with h | h
            · exact Bool.and_eq_false_iff.mpr
                (Or.inl (Bool.and_eq_false_iff.mpr (Or.inr (beq_eq_false_iff_ne.mpr h))))
            · exact Bool.and_eq_false_iff.mpr (Or.inr (beq_eq_false_iff_ne.mpr h))
          rw [hnm, if_neg (show ¬(false = true) by simp), Nat.add_zero]

/-- A non-failing provisioning pass over rows whose digital keys are all
present already changes nothing. -/
theorem processRows_noop (now : Int) (oid : Nat) :
    ∀ (rows : List GrantRow) (ds : List DownloadRec) (n : Nat),
      (∀ r ∈ rows, digitalRow r = true →
        (ds.find? (fun d => d.order_id == oid && d.product_id == r.product_id &&
          d.user_id == r.user_id)).isSome = true) →
      processRows now oid false rows ds n = (ds, n) := by
  intro rows
  induction rows with
  | nil => intro ds n _; rfl
  | cons r rs ih =>
    intro ds n hsat
    rw [processRows_cons]
    cases hdig : digitalRow r with
    | false =>
      rw [if_neg (by simp)]
      exact ih ds n (fun x hx => hsat x (List.mem_cons_of_mem r hx))
    | true =>
      rw [if_pos rfl, if_pos (hsat r (List.mem_cons_self r rs) hdig)]
      exact ih ds n (fun x hx => hsat x (List.mem_cons_of_mem r hx))

/-- Every digital line item of the order contributes its joined row. -/
theorem grantRows_mem_of_item {oid : Nat} {items : List OrderItem}
    {orders : List Order} {products : List Product} {it : OrderItem} {o : Order}
    {p : Product}
    (hit : it ∈ items) (hoid : it.order_id = oid)
    (ho : orders.find? (fun x => x.id == it.order_id) = some o)
    (hp : products.find? (fun x => x.id == it.product_id) = some p) :
    (⟨it.product_id, o.user_id, p.digital_file_url, p.download_limit⟩ : GrantRow) ∈
      grantRows oid items orders products := by
  unfold grantRows
  refine List.mem_filterMap.mpr ⟨it, hit, ?_⟩
  have ho2 : orders.find? (fun x => x.id == oid) = some o := by
    rw [← hoid]; exact ho
  simp [hoid, ho2, hp]

/-- Decomposition of a joined row into its source line item, order and
product. -/
theorem grantRows_mem_elim {oid : Nat} {items : List OrderItem}
    {orders : List Order} {products : List Product} {r : GrantRow}
    (hr : r ∈ grantRows oid items orders products) :
    ∃ it ∈ items, it.order_id = oid ∧
      ∃ o, orders.find? (fun x => x.id == it.order_id) = some o ∧
      ∃ p, products.find? (fun x => x.id == it.product_id) = some p ∧
      r = ⟨it.product_id, o.user_id, p.digital_file_url, p.download_limit⟩ := by
  unfold grantRows at hr
  obtain ⟨it, hit, heq⟩ := List.mem_filterMap.mp hr
  by_cases hb : (it.order_id == oid) = true
  · rw [if_pos hb] at heq
    cases ho : orders.find? (fun x => x.id == it.order_id) with
    | none =>
      simp only [ho] at heq
      exact Option.noConfusion heq
    | some o =>
      simp only [ho] at heq
      cases hp : products.find? (fun x => x.id == it.product_id) with
      | none =>
        simp only [hp] at heq
        exact Option.noConfusion heq
      | some p =>
        simp only [hp, Option.some.injEq] at heq
        exact ⟨it, hit, by simpa using hb, o, ho, p, hp, heq.symm⟩
  · rw [if_neg hb] at heq
    cases heq

/-- The items/orders/products join does not see updates of the orders that
preserve ids and owning users. -/
theorem grantRows_congr_orders (oid : Nat) (items : List OrderItem)
    (orders : List Order) (products : List Product) (f : Order → Order)
    (hid : ∀ o, (f o).id = o.id) (huser : ∀ o, (f o).user_id = o.user_id) :
    grantRows oid items (orders.map f) products =
      grantRows oid items orders products := by
  unfold grantRows
  induction items with
  | nil => rfl
  | cons it rest ih =>
    rw [List.filterMap_cons, List.filterMap_cons, ih]
    congr 1
    by_cases hb : (it.order_id == oid) = true
    · rw [if_pos hb, if_pos hb]
      have hmap := find?_map_comm f (fun x : Order => x.id == it.order_id)
        (fun x => by simp [hid x]) orders
      rw [hmap]
      cases ho : orders.find? (fun x => x.id == it.order_id) with
      | none => rfl
      | some o =>
        cases hp : products.find? (fun x => x.id == it.product_id) with
        | none => rfl
        | some p => simp [huser o]
    · rw [if_neg hb, if_neg hb]

/-- Count characterization of one provisioning run. -/
theorem createDownloadRecords_downloads (now : Int) (oid : Nat) (S : DBState)
    (hfl : S.downloadInsertFails = false) (rows : List GrantRow)
    (hrows : grantRows oid S.orderItems S.orders S.products = rows) (pid uid : Nat) :
    keyCount (createDownloadRecords now oid S).downloads oid pid uid =
      if rows.any (fun r => digitalRow r && r.product_id == pid && r.user_id == uid)
      then max 1 (keyCount S.downloads oid pid uid)
      else keyCount S.downloads oid pid uid := by
  subst hrows
  show keyCount (processRows now oid S.downloadInsertFails
    (grantRows oid S.orderItems S.orders S.products) S.downloads S.nextDownloadId).1
      oid pid uid = _
  rw [hfl]
  exact processRows_keyCount now oid _ S.downloads S.nextDownloadId pid uid

/-- After one provisioning run every digital row's key holds a grant. -/
theorem createDownloadRecords_sat (now : Int) (oid : Nat) (S : DBState)
    (hfl : S.downloadInsertFails = false) (rows : List GrantRow)
    (hrows : grantRows oid S.orderItems S.orders S.products = rows) :
    ∀ r ∈ rows, digitalRow r = true →
      ((createDownloadRecords now oid S).downloads.find?
        (fun d => d.order_id == oid && d.product_id == r.product_id &&
          d.user_id == r.user_id)).isSome = true := by
  intro r hr hdig
  rw [← keyCount_pos_iff]
  rw [createDownloadRecords_downloads now oid S hfl rows hrows r.product_id r.user_id]
  have hany : rows.any
      (fun x => digitalRow x && x.product_id == r.product_id &&
        x.user_id == r.user_id) = true :=
    List.any_eq_true.mpr ⟨r, hr, by simp [hdig]⟩
  rw [if_pos hany]
  exact le_max_left 1 _

/-- A provisioning run over a store that already satisfies every digital
row changes no grants. -/
theorem createDownloadRecords_noop (now : Int) (oid : Nat) (S : DBState)
    (hfl : S.downloadInsertFails = false) (rows : List GrantRow)
    (hrows : grantRows oid S.orderItems S.orders S.products = rows)
    (hsat : ∀ r ∈ rows, digitalRow r = true →
      (S.downloads.find? (fun d => d.order_id == oid &&
        d.product_id == r.product_id && d.user_id == r.user_id)).isSome = true) :
    (createDownloadRecords now oid S).downloads = S.downloads := by
  subst hrows
  show (processRows now oid S.downloadInsertFails
    (grantRows oid S.orderItems S.orders S.products) S.downloads S.nextDownloadId).1 = _
  rw [hfl, processRows_noop now oid _ S.downloads S.nextDownloadId hsat]

/-- One provisioning pass from a state whose orders were rewritten by an
id- and user-preserving update: each digital item of the order ends with
exactly one grant at its key, each non-digital item with none, and every
digital joined row's key is satisfied afterwards. -/
theorem provision_entry (now : Int) (st : DBState) (oid : Nat) (o : Order)
    (f : Order → Order)
    (hid : ∀ x : Order, (f x).id = x.id)
    (huser : ∀ x : Order, (f x).user_id = x.user_id)
    (hfind : st.orders.find? (fun x => x.id == oid) = some o)
    (hclean : ∀ dl ∈ st.downloads, dl.order_id ≠ oid)
    (hnofail : st.downloadInsertFails = false) :
    (∀ it ∈ st.orderItems, it.order_id = oid →
      ∀ p, st.products.find? (fun x => x.id == it.product_id) = some p →
        (digitalProduct p = true →
          keyCount (createDownloadRecords now oid
            { st with
            orders := st.orders.map (fun x => if x.id == oid then f x else x) }).downloads
            oid it.product_id o.user_id = 1) ∧
        (digitalProduct p = false →
          keyCount (createDownloadRecords now oid
            { st with
            orders := st.orders.map (fun x => if x.id == oid then f x else x) }).downloads
            oid it.product_id o.user_id = 0)) ∧
    (∀ r ∈ grantRows oid st.orderItems st.orders st.products, digitalRow r = true →
      ((createDownloadRecords now oid
        { st with
        orders := st.orders.map (fun x => if x.id == oid then f x else x) }).downloads.find?
        (fun d => d.order_id == oid && d.product_id == r.product_id &&
          d.user_id == r.user_id)).isSome = true) := by
  have hrows : grantRows oid st.orderItems
      (st.orders.map (fun x => if x.id == oid then f x else x)) st.products =
      grantRows oid st.orderItems st.orders st.products :=
    grantRows_congr_orders oid st.orderItems st.orders st.products _
      (fun x => by by_cases h : (x.id == oid) = true <;> simp [h, hid x])
      (fun x => by by_cases h : (x.id == oid) = true <;> simp [h, huser x])
  constructor
  · intro it hit hoid p hp
    have ho : st.orders.find? (fun x => x.id == it.order_id) = some o := by
      simp only [hoid]
      exact hfind
    have hmem : (⟨it.product_id, o.user_id, p.digital_file_url, p.download_limit⟩ :
        GrantRow) ∈ grantRows oid st.orderItems st.orders st.products :=
      grantRows_mem_of_item hit hoid ho hp
    constructor
    · intro hdig
      rw [createDownloadRecords_downloads now oid
        { st with
        orders := st.orders.map (fun x => if x.id == oid then f x else x) }
        hnofail _ hrows it.product_id o.user_id]
      have hany : (grantRows oid st.orderItems st.orders st.products).any
          (fun r => digitalRow r && r.product_id == it.product_id &&
            r.user_id == o.user_id) = true := by
        refine List.any_eq_true.mpr ⟨_, hmem, ?_⟩
        have h1 : digitalRow
            (⟨it.product_id, o.user_id, p.digital_file_url, p.download_limit⟩ :
              GrantRow) = true := hdig
        simp [h1]
      rw [if_pos hany]
      show max 1 (keyCount st.downloads oid it.product_id o.user_id) = 1
      rw [keyCount_zero_of_clean hclean]
      decide
    · intro hnon
      rw [createDownloadRecords_downloads now oid
        { st with
        orders := st.orders.map (fun x => if x.id == oid then f x else x) }
        hnofail _ hrows it.product_id o.user_id]
      have hany : (grantRows oid st.orderItems st.orders st.products).any
          (fun r => digitalRow r && r.product_id == it.product_id &&
            r.user_id == o.user_id) = false := by
        rw [List.any_eq_false]
        intro r hr
        obtain ⟨it2, hit2, hoid2, o2, ho2, p2, hp2, hreq⟩ := grantRows_mem_elim hr
        subst hreq
        by_cases hpid : it2.product_id = it.product_id
        · have hp2m : st.products.find? (fun x => x.id == it.product_id) = some p2 := by
            simp only [← hpid]
            exact hp2
          have hpp : p2 = p := Option.some.inj (hp2m.symm.trans hp)
          have hdig2 : digitalRow
              (⟨it2.product_id, o2.user_id, p2.digital_file_url, p2.download_limit⟩ :
                GrantRow) = false := by
            show digitalProduct p2 = false
            rw [hpp]
            exact hnon
          simp [hdig2]
        · simp [hpid]
      rw [if_neg (by rw [hany]; decide)]
      show keyCount st.downloads oid it.product_id o.user_id = 0
      exact keyCount_zero_of_clean hclean it.product_id o.user_id
  · intro r hr hdig
    exact createDownloadRecords_sat now oid
      { st with
      orders := st.orders.map (fun x => if x.id == oid then f x else x) }
      hnofail _ hrows r hr hdig

/-- C5: once an order reaches status = completed and payment_status =
completed — through `updateOrderStatus` when payment was already complete,
or through `updatePaymentStatus` when the status was — the store holds
exactly one download grant per line item whose product carries a (truthy)
digital-asset URL, keyed by (user, product, order), and none for
non-digital line items; re-entering the completed/completed state through
either handler leaves the grants unchanged. -/
theorem grant_provisioning_on_completion (now now2 : Int) (st : DBState)
    (oid : Nat) (o : Order)
    (hfind : st.orders.find? (fun x => x.id == oid) = some o)
    (hclean : ∀ dl ∈ st.downloads, dl.order_id ≠ oid)
    (hnofail : st.downloadInsertFails = false) :
    (o.payment_status = .completed →
      (∀ it ∈ st.orderItems, it.order_id = oid →
        ∀ p, st.products.find? (fun x => x.id == it.product_id) = some p →
          (digitalProduct p = true →
            keyCount ((updateOrderStatus now oid .completed st).2).downloads oid
              it.product_id o.user_id = 1) ∧
          (digitalProduct p = false →
            keyCount ((updateOrderStatus now oid .completed st).2).downloads oid
              it.product_id o.user_id = 0)) ∧
      ((updateOrderStatus now2 oid .completed
          ((updateOrderStatus now oid .completed st).2)).2.downloads =
        ((updateOrderStatus now oid .completed st).2).downloads) ∧
      ((updatePaymentStatus now2 oid .completed
          ((updateOrderStatus now oid .completed st).2)).2.downloads =
        ((updateOrderStatus now oid .completed st).2).downloads)) ∧
    (o.status = .completed →
      (∀ it ∈ st.orderItems, it.order_id = oid →
        ∀ p, st.products.find? (fun x => x.id == it.product_id) = some p →
          (digitalProduct p = true →
            keyCount ((updatePaymentStatus now oid .completed st).2).downloads oid
              it.product_id o.user_id = 1) ∧
          (digitalProduct p = false →
            keyCount ((updatePaymentStatus now oid .completed st).2).downloads oid
              it.product_id o.user_id = 0)) ∧
      ((updatePaymentStatus now2 oid .completed
          ((updatePaymentStatus now oid .completed st).2)).2.downloads =
        ((updatePaymentStatus now oid .completed st).2).downloads) ∧
      ((updateOrderStatus now2 oid .completed
          ((updatePaymentStatus now oid .completed st).2)).2.downloads =
        ((updatePaymentStatus now oid .completed st).2).downloads)) := by
  constructor
  · intro hpay
    have hres := (@updateOrderStatus_result now oid OrderStatus.completed _ _ hfind).2
    rw [if_pos ⟨rfl, hpay⟩] at hres
    have hmain := provision_entry now st oid o
      (fun x => { x with status := OrderStatus.completed, updated_at := now })
      (fun x => rfl) (fun x => rfl) hfind hclean hnofail
    have hfind1 : ((createDownloadRecords now oid
        { st with
        orders := st.orders.map (fun x =>
          if x.id == oid then { x with status := OrderStatus.completed, updated_at := now }
          else x) }).orders.find? (fun x => x.id == oid)) =
        some { o with status := OrderStatus.completed, updated_at := now } := by
      show ((st.orders.map (fun x =>
        if x.id == oid then { x with status := OrderStatus.completed, updated_at := now }
        else x)).find? (fun x => x.id == oid)) = _
      exact find?_map_selective (fun x => x.id == oid)
        (fun x => { x with status := OrderStatus.completed, updated_at := now })
        (fun x hx => hx) st.orders o hfind
    have hrowsB : grantRows oid st.orderItems
        (st.orders.map (fun x =>
          if x.id == oid then { x with status := OrderStatus.completed, updated_at := now }
          else x)) st.products =
        grantRows oid st.orderItems st.orders st.products :=
      grantRows_congr_orders oid st.orderItems st.orders st.products _
        (fun x => by by_cases h : (x.id == oid) = true <;> simp [h])
        (fun x => by by_cases h : (x.id == oid) = true <;> simp [h])
    refine ⟨?_, ?_, ?_⟩
    · intro it hit hoid p hp
      constructor
      · intro hd
        rw [hres]
        exact (hmain.1 it hit hoid p hp).1 hd
      · intro hd
        rw [hres]
        exact (hmain.1 it hit hoid p hp).2 hd
    · rw [hres]
      have hres2 := (@updateOrderStatus_result now2 oid OrderStatus.completed _ _ hfind1).2
      rw [if_pos ⟨rfl, hpay⟩] at hres2
      rw [hres2]
      have hrowsA : grantRows oid st.orderItems
          ((st.orders.map (fun x =>
            if x.id == oid then { x with status := OrderStatus.completed, updated_at := now }
            else x)).map (fun x =>
            if x.id == oid then { x with status := OrderStatus.completed, updated_at := now2 }
            else x)) st.products =
          grantRows oid st.orderItems
            (st.orders.map (fun x =>
              if x.id == oid then { x with status := OrderStatus.completed, updated_at := now }
              else x)) st.products :=
        grantRows_congr_orders oid st.orderItems _ st.products _
          (fun x => by by_cases h : (x.id == oid) = true <;> simp [h])
          (fun x => by by_cases h : (x.id == oid) = true <;> simp [h])
      exact createDownloadRecords_noop now2 oid _ hnofail _
        (hrowsA.trans hrowsB) hmain.2
    · rw [hres]
      have hres2 := (@updatePaymentStatus_result now2 oid PaymentStatus.completed _ _ hfind1).2
      rw [if_pos ⟨rfl, rfl⟩] at hres2
      rw [hres2]
      have hrowsA : grantRows oid st.orderItems
          ((st.orders.map (fun x =>
            if x.id == oid then { x with status := OrderStatus.completed, updated_at := now }
            else x)).map (fun x =>
            if x.id == oid then { x with payment_status := PaymentStatus.completed, updated_at := now2 }
            else x)) st.products =
          grantRows oid st.orderItems
            (st.orders.map (fun x =>
              if x.id == oid then { x with status := OrderStatus.completed, updated_at := now }
              else x)) st.products :=
        grantRows_congr_orders oid st.orderItems _ st.products _
          (fun x => by by_cases h : (x.id == oid) = true <;> simp [h])
          (fun x => by by_cases h : (x.id == oid) = true <;> simp [h])
      exact createDownloadRecords_noop now2 oid _ hnofail _
        (hrowsA.trans hrowsB) hmain.2
  · intro hstat
    have hres := (@updatePaymentStatus_result now oid PaymentStatus.completed _ _ hfind).2
    rw [if_pos ⟨rfl, hstat⟩] at hres
    have hmain := provision_entry now st oid o
      (fun x => { x with payment_status := PaymentStatus.completed, updated_at := now })
      (fun x => rfl) (fun x => rfl) hfind hclean hnofail
    have hfind1 : ((createDownloadRecords now oid
        { st with
        orders := st.orders.map (fun x =>
          if x.id == oid then { x with payment_status := PaymentStatus.completed, updated_at := now }
          else x) }).orders.find? (fun x => x.id == oid)) =
        some { o with payment_status := PaymentStatus.completed, updated_at := now } := by
      show ((st.orders.map (fun x =>
        if x.id == oid then { x with payment_status := PaymentStatus.completed, updated_at := now }
        else x)).find? (fun x => x.id == oid)) = _
      exact find?_map_selective (fun x => x.id == oid)
        (fun x => { x with payment_status := PaymentStatus.completed, updated_at := now })
        (fun x hx => hx) st.orders o hfind
    have hrowsB : grantRows oid st.orderItems
        (st.orders.map (fun x =>
          if x.id == oid then { x with payment_status := PaymentStatus.completed, updated_at := now }
          else x)) st.products =
        grantRows oid st.orderItems st.orders st.products :=
      grantRows_congr_orders oid st.orderItems st.orders st.products _
        (fun x => by by_cases h : (x.id == oid) = true <;> simp [h])
        (fun x => by by_cases h : (x.id == oid) = true <;> simp [h])
    refine ⟨?_, ?_, ?_⟩
    · intro it hit hoid p hp
      constructor
      · intro hd
        rw [hres]
        exact (hmain.1 it hit hoid p hp).1 hd
      · intro hd
        rw [hres]
        exact (hmain.1 it hit hoid p hp).2 hd
    · rw [hres]
      have hres2 := (@updatePaymentStatus_result now2 oid PaymentStatus.completed _ _ hfind1).2
      rw [if_pos ⟨rfl, hstat⟩] at hres2
      rw [hres2]
      have hrowsA : grantRows oid st.orderItems
          ((st.orders.map (fun x =>
            if x.id == oid then { x with payment_status := PaymentStatus.completed, updated_at := now }
            else x)).map (fun x =>
            if x.id == oid then { x with payment_status := PaymentStatus.completed, updated_at := now2 }
            else x)) st.products =
          grantRows oid st.orderItems
            (st.orders.map (fun x =>
              if x.id == oid then { x with payment_status := PaymentStatus.completed, updated_at := now }
              else x)) st.products :=
        grantRows_congr_orders oid st.orderItems _ st.products _
          (fun x => by by_cases h : (x.id == oid) = true <;> simp [h])
          (fun x => by by_cases h : (x.id == oid) = true <;> simp [h])
      exact createDownloadRecords_noop now2 oid _ hnofail _
        (hrowsA.trans hrowsB) hmain.2
    · rw [hres]
      have hres2 := (@updateOrderStatus_result now2 oid OrderStatus.completed _ _ hfind1).2
      rw [if_pos ⟨rfl, rfl⟩] at hres2
      rw [hres2]
      have hrowsA : grantRows oid st.orderItems
          ((st.orders.map (fun x =>
            if x.id == oid then { x with payment_status := PaymentStatus.completed, updated_at := now }
            else x)).map (fun x =>
            if x.id == oid then { x with status := OrderStatus.completed, updated_at := now2 }
            else x)) st.products =
          grantRows oid st.orderItems
            (st.orders.map (fun x =>
              if x.id == oid then { x with payment_status := PaymentStatus.completed, updated_at := now }
              else x)) st.products :=
        grantRows_congr_orders oid st.orderItems _ st.products _
          (fun x => by by_cases h : (x.id == oid) = true <;> simp [h])
          (fun x => by by_cases h : (x.id == oid) = true <;> simp [h])
      exact createDownloadRecords_noop now2 oid _ hnofail _
        (hrowsA.trans hrowsB) hmain.2

/-- Store for the C5 witness: an order with payment already completed, one
digital line item (product 1) and one non-digital line item (product 2), no
grants yet. -/
def stC5 : DBState :=
  { users := [⟨7⟩],
    products := [⟨1, some "https://x/a.pdf", some 3⟩, ⟨2, none, none⟩],
    coupons := [],
    orders := [⟨1, 7, 30, 0, 30, none, .pending, .completed, 0, 0⟩],
    orderItems := [⟨1, 1, 1, 1, 10, 0⟩, ⟨2, 1, 2, 1, 20, 0⟩],
    downloads := [],
    nextOrderId := 2, nextOrderItemId := 3, nextDownloadId := 1,
    downloadInsertFails := false }

/-- Witness for C5: the hypotheses hold at the concrete store and the
theorem applies there. -/
theorem grant_provisioning_on_completion_witness :
    (stC5.orders.find? (fun x => x.id == 1) =
      some ⟨1, 7, 30, 0, 30, none, .pending, .completed, 0, 0⟩) ∧
    (∀ dl ∈ stC5.downloads, dl.order_id ≠ 1) ∧
    (((⟨1, 7, 30, 0, 30, none, .pending, .completed, 0, 0⟩ : Order).payment_status =
        .completed →
      (∀ it ∈ stC5.orderItems, it.order_id = 1 →
        ∀ p, stC5.products.find? (fun x => x.id == it.product_id) = some p →
          (digitalProduct p = true →
            keyCount ((updateOrderStatus 5 1 .completed stC5).2).downloads 1
              it.product_id 7 = 1) ∧
          (digitalProduct p = false →
            keyCount ((updateOrderStatus 5 1 .completed stC5).2).downloads 1
              it.product_id 7 = 0)) ∧
      ((updateOrderStatus 6 1 .completed
          ((updateOrderStatus 5 1 .completed stC5).2)).2.downloads =
        ((updateOrderStatus 5 1 .completed stC5).2).downloads) ∧
      ((updatePaymentStatus 6 1 .completed
          ((updateOrderStatus 5 1 .completed stC5).2)).2.downloads =
        ((updateOrderStatus 5 1 .completed stC5).2).downloads)) ∧
    (((⟨1, 7, 30, 0, 30, none, .pending, .completed, 0, 0⟩ : Order).status = .completed →
      (∀ it ∈ stC5.orderItems, it.order_id = 1 →
        ∀ p, stC5.products.find? (fun x => x.id == it.product_id) = some p →
          (digitalProduct p = true →
            keyCount ((updatePaymentStatus 5 1 .completed stC5).2).downloads 1
              it.product_id 7 = 1) ∧
          (digitalProduct p = false →
            keyCount ((updatePaymentStatus 5 1 .completed stC5).2).downloads 1
              it.product_id 7 = 0)) ∧
      ((updatePaymentStatus 6 1 .completed
          ((updatePaymentStatus 5 1 .completed stC5).2)).2.downloads =
        ((updatePaymentStatus 5 1 .completed stC5).2).downloads) ∧
      ((updateOrderStatus 6 1 .completed
          ((updatePaymentStatus 5 1 .completed stC5).2)).2.downloads =
        ((updatePaymentStatus 5 1 .completed stC5).2).downloads)))) :=
  ⟨rfl, by simp [stC5],
    grant_provisioning_on_completion 5 6 stC5 1
      ⟨1, 7, 30, 0, 30, none, .pending, .completed, 0, 0⟩
      rfl (by simp [stC5]) rfl⟩

end DigitalShop
